import Mathlib

/-!
The file paddle/fluid/inference/api/resource_manager.cc.

A shallow embedding of the reference-counted pool of per-stream GPU resources
(`EigenGpuStreamDevice`, `GPUContextResource`, `ResourceManager`) and the
properties of its registry, its construction and teardown sequences and its
scratch allocator adapter.

Pointers (`void*`, `gpuStream_t`, the backend handles) are natural numbers and
`0` is `nullptr`.  The reference count is a C++ `int`: an integer with the
arithmetic of `wrapInt`.  The calls into the driver, the allocator and the
backend libraries are external: what they answer is an argument of the model,
and the calls are recorded in a trace.
-/

namespace paddle

/-- A `gpuStream_t` / `void*` stream identity; `0` is `nullptr`. -/
abbrev Stream := Nat

/-- A backend-library handle (`dnnHandle_t`, `blasHandle_t`, ...); `0` is `nullptr`. -/
abbrev Handle := Nat

/-- The null pointer. -/
def nullptr : Nat := 0

/-- The errors raised by `PADDLE_ENFORCE_*` in this file, the failure of an
external call, and the end of the process by `std::terminate` when a throw
leaves a destructor. -/
inductive Err where
  | InvalidArgument
  | PreconditionNotMet
  | External
  | Terminated
  deriving DecidableEq, Repr

/-- The result of a call that either returns or throws. -/
inductive Res (α : Type) where
  | ok (a : α)
  | error (e : Err)
  deriving DecidableEq, Repr

/-- Whether the call returned. -/
def Res.isOk {α : Type} : Res α → Bool
  | .ok _ => true
  | .error _ => false

/-- The build configuration: `PADDLE_WITH_HIP`, or `PADDLE_WITH_CUDA` with its
`CUDA_VERSION`. -/
inductive Platform where
  | hip
  | cuda (CUDA_VERSION : Nat)
  deriving DecidableEq, Repr

/-- A `phi::Place` of a GPU: its device index. -/
structure Place where
  device : Nat
  deriving DecidableEq, Repr

/-- The value of a C++ `int` after an arithmetic step whose mathematical result
is `x`: the result modulo 2^32, in the range from -2^31 to 2^31 - 1. -/
def wrapInt (x : Int) : Int := (x + 2147483648) % 4294967296 - 2147483648

/-- The largest C++ `int`. -/
def INT_MAX : Int := 2147483647

/-! ## The map operations used on `allocations_`, `ref_count_`, `gpu_resources_`

A map with unique keys is a list of key/value pairs; every operation looks at
the first pair with the key, and `erase` removes every pair with it. -/

/-- A map from pointers to `V`. -/
abbrev UMap (V : Type) := List (Nat × V)

namespace UMap

variable {V : Type}

/-- The keys of the map, in storage order. -/
def keys (m : UMap V) : List Nat := m.map Prod.fst

/-- The member `count(k)`: the number of elements with key `k`, 0 or 1. -/
def count : UMap V → Nat → Nat
  | [], _ => 0
  | (k', _) :: t, k => if k' = k then 1 else count t k

/-- The member `at(k)`, `none` when the key is absent. -/
def lookup : UMap V → Nat → Option V
  | [], _ => none
  | (k', v) :: t, k => if k' = k then some v else lookup t k

/-- The member `emplace(k, v)`: inserts only when `k` is not yet a key. -/
def emplace : UMap V → Nat → V → UMap V
  | [], k, v => [(k, v)]
  | (k', v') :: t, k, v => if k' = k then (k', v') :: t else (k', v') :: emplace t k v

/-- The access `m[k]` followed by an update of the element by `f`: when `k` is
absent, `operator[]` first inserts the value-initialised element `dflt`. -/
def update : UMap V → Nat → (V → V) → V → UMap V
  | [], k, f, dflt => [(k, f dflt)]
  | (k', v') :: t, k, f, dflt =>
    if k' = k then (k', f v') :: t else (k', v') :: update t k f dflt

/-- The member `erase(k)`. -/
def erase : UMap V → Nat → UMap V
  | [], _ => []
  | (k', v') :: t, k => if k' = k then erase t k else (k', v') :: erase t k

end UMap

/-! ## `internal::EigenGpuStreamDevice` -/

/-- A `phi::Allocation`: the buffer address `ptr()` and its size. -/
structure Allocation where
  ptr : Nat
  size : Nat
  deriving DecidableEq, Repr

/-- The state of an `EigenGpuStreamDevice`. -/
structure EigenGpuStreamDevice where
  stream_ : Stream
  allocator_ : Nat
  device_prop_ : Nat
  scratch_ : Nat
  semaphore_ : Nat
  allocations_ : UMap Allocation
  deriving DecidableEq, Repr

/-- What one call of `allocate` or `deallocate` leaves behind: the returned
value, the adapter afterwards, and the sizes requested from the external
allocator during the call. -/
structure AllocOutcome (α : Type) where
  ret : Res α
  dev : EigenGpuStreamDevice
  requests : List Nat

namespace EigenGpuStreamDevice

/-- The constructor `EigenGpuStreamDevice()`: `scratch_` and `semaphore_` are
null; the other members are set by `Reinitialize`. -/
def new : EigenGpuStreamDevice :=
  { stream_ := nullptr, allocator_ := nullptr, device_prop_ := 0,
    scratch_ := nullptr, semaphore_ := nullptr, allocations_ := [] }

/-- The method `Reinitialize(cuda_stream, allocator, place)`. -/
def Reinitialize (self : EigenGpuStreamDevice) (cuda_stream : Stream) (allocator : Nat)
    (place : Place) : EigenGpuStreamDevice :=
  { self with stream_ := cuda_stream, allocator_ := allocator, device_prop_ := place.device }

/-- The method `allocate(num_bytes)`.  `Allocate` is the answer of the external
`allocator_->Allocate`: a buffer, or an error that propagates. -/
def allocate (Allocate : Nat → Res Allocation) (self : EigenGpuStreamDevice)
    (num_bytes : Nat) : AllocOutcome Nat :=
  if num_bytes = 0 then
    { ret := .ok nullptr, dev := self, requests := [] }
  else
    match Allocate num_bytes with
    | .error e => { ret := .error e, dev := self, requests := [num_bytes] }
    | .ok buf =>
      let retv := buf.ptr
      { ret := .ok retv,
        dev := { self with allocations_ := self.allocations_.emplace retv buf },
        requests := [num_bytes] }

/-- The method `deallocate(buffer)`. -/
def deallocate (self : EigenGpuStreamDevice) (buffer : Nat) : AllocOutcome Unit :=
  if buffer ≠ nullptr then
    { ret := .ok (), dev := { self with allocations_ := self.allocations_.erase buffer },
      requests := [] }
  else
    { ret := .ok (), dev := self, requests := [] }

end EigenGpuStreamDevice

/-! ## The external calls of a `GPUContextResource` -/

/-- The device properties written by `phi::InitGpuProperties`. -/
structure GpuProperties where
  compute_capability : Int
  runtime_version : Int
  driver_version : Int
  multi_process : Int
  max_threads_per_mp : Int
  max_threads_per_block : Int
  max_grid_dim_size : Int × Int × Int
  deriving DecidableEq, Repr

/-- A call into the driver or a backend library: an init call that returned,
with the stream or handle it produced, or a destroy call that was issued, with
the stream or handle it was given. -/
inductive Call where
  | DeviceGuardEnter (device : Nat)
  | DeviceGuardExit
  | InitStream (s : Stream)
  | StreamDestroy (s : Stream)
  | InitGpuProperties (device : Nat)
  | GetAllocator (device : Nat)
  | InitDnnHandle (h : Handle)
  | DestroyDnnHandle (h : Handle)
  | InitBlasHandle (h : Handle)
  | SetMathMode (h : Handle) (tf32 : Bool)
  | DestroyBlasHandle (h : Handle)
  | InitBlasLtHandle (h : Handle)
  | DestroyBlasLtHandle (h : Handle)
  | InitSolverHandle (h : Handle)
  | DestroySolverHandle (h : Handle)
  | InitSparseHandle (h : Handle)
  | DestroySparseHandle (h : Handle)
  deriving DecidableEq, Repr

/-- What the driver, the allocator facade and the backend libraries answer
during one construction of a `GPUContextResource`: the stream or handle an
init call produces, or `none` (`false` for `cublasSetMathMode`) when that call
fails and throws.  `phi::InitBlasHandle` is called up to three times; each call
has its own answer.  `StreamDestroy` is whether `cudaStreamDestroy` /
`hipStreamDestroy` succeeds when a bundle built in this call is destructed in
it. -/
structure Driver where
  InitStream : Option Stream
  InitGpuProperties : Option GpuProperties
  GetAllocator : Option Nat
  InitDnnHandle : Option Handle
  InitBlasHandle : Option Handle
  InitBlasTensorCoreHandle : Option Handle
  SetTensorOpMath : Bool
  InitBlasTF32Handle : Option Handle
  SetTF32TensorOpMath : Bool
  InitBlasLtHandle : Option Handle
  InitSolverHandle : Option Handle
  InitSparseHandle : Option Handle
  StreamDestroy : Bool
  deriving DecidableEq, Repr

/-- A computation that issues external calls: its result and the calls that
returned before it ended. -/
structure Run (α : Type) where
  res : Res α
  calls : List Call

namespace Run

/-- A computation that returns at once. -/
def ret {α : Type} (a : α) : Run α := { res := .ok a, calls := [] }

/-- Sequencing: a throw in the first part skips the second. -/
def andThen {α β : Type} (x : Run α) (f : α → Run β) : Run β :=
  match x.res with
  | .ok a => { res := (f a).res, calls := x.calls ++ (f a).calls }
  | .error e => { res := .error e, calls := x.calls }

/-- One external call: it returns the answer and is recorded, or throws. -/
def ext {α : Type} (answer : Option α) (c : α → Call) : Run α :=
  match answer with
  | some a => { res := .ok a, calls := [c a] }
  | none => { res := .error .External, calls := [] }

/-- An external call with no output, as `cublasSetMathMode`. -/
def extUnit (answer : Bool) (c : Call) : Run Unit :=
  if answer then { res := .ok (), calls := [c] } else { res := .error .External, calls := [] }

end Run

instance : Monad Run where
  pure := Run.ret
  bind := Run.andThen

/-! ## `GPUContextResource` -/

/-- The members of a `GPUContextResource`.  `gpu_eigen_device_` is the
`Eigen::GpuDevice` wrapping `eigen_stream_`; only whether it is set is kept. -/
structure GPUContextResource where
  place_ : Place
  owned_stream_ : Bool
  stream_ : Stream
  eigen_stream_ : Option EigenGpuStreamDevice
  gpu_eigen_device_ : Bool
  compute_capability_ : Int
  runtime_version_ : Int
  driver_version_ : Int
  multi_process_ : Int
  max_threads_per_mp_ : Int
  max_threads_per_block_ : Int
  max_grid_dim_size_ : Int × Int × Int
  dnn_handle_ : Handle
  blas_handle_ : Handle
  blas_tensor_core_handle_ : Handle
  blas_tf32_tensor_core_handle_ : Handle
  blaslt_handle_ : Handle
  solver_handle_ : Handle
  sparse_handle_ : Handle
  deriving DecidableEq, Repr

namespace GPUContextResource

/-- Modelled from the spec: the member declarations of `GPUContextResource` are
in resource_manager.h, which is not among the sources.  Before
`InitGPUResource` runs the object holds `place_` and, for every other member,
its null value: the spec's bundle has no handle before construction
completes. -/
def blank (place : Place) : GPUContextResource :=
  { place_ := place, owned_stream_ := false, stream_ := nullptr,
    eigen_stream_ := none, gpu_eigen_device_ := false,
    compute_capability_ := 0, runtime_version_ := 0, driver_version_ := 0,
    multi_process_ := 0, max_threads_per_mp_ := 0, max_threads_per_block_ := 0,
    max_grid_dim_size_ := (0, 0, 0),
    dnn_handle_ := nullptr, blas_handle_ := nullptr, blas_tensor_core_handle_ := nullptr,
    blas_tf32_tensor_core_handle_ := nullptr, blaslt_handle_ := nullptr,
    solver_handle_ := nullptr, sparse_handle_ := nullptr }

/-- The method `InitGpuProperties()`. -/
def InitGpuProperties (d : Driver) (self : GPUContextResource) : Run GPUContextResource := do
  let p ← Run.ext d.InitGpuProperties (fun _ => Call.InitGpuProperties self.place_.device)
  pure { self with
    compute_capability_ := p.compute_capability, runtime_version_ := p.runtime_version,
    driver_version_ := p.driver_version, multi_process_ := p.multi_process,
    max_threads_per_mp_ := p.max_threads_per_mp,
    max_threads_per_block_ := p.max_threads_per_block,
    max_grid_dim_size_ := p.max_grid_dim_size }

/-- The method `InitGpuEigenDevice()`. -/
def InitGpuEigenDevice (d : Driver) (self : GPUContextResource) : Run GPUContextResource := do
  let allocator ← Run.ext d.GetAllocator (fun _ => Call.GetAllocator self.place_.device)
  pure { self with
    eigen_stream_ :=
      some (EigenGpuStreamDevice.new.Reinitialize self.stream_ allocator self.place_),
    gpu_eigen_device_ := true }

/-- The method `InitDnnHanlde()`. -/
def InitDnnHanlde (d : Driver) (self : GPUContextResource) : Run GPUContextResource := do
  let h ← Run.ext d.InitDnnHandle Call.InitDnnHandle
  pure { self with dnn_handle_ := h }

/-- The method `DestroyDnnHandle()`. -/
def DestroyDnnHandle (self : GPUContextResource) : List Call :=
  [Call.DestroyDnnHandle self.dnn_handle_]

/-- The `CUDA_VERSION >= 9000` part of `InitBlasHandle()`. -/
def InitBlasTensorCore (d : Driver) (self : GPUContextResource) : Run GPUContextResource := do
  let h ← Run.ext d.InitBlasTensorCoreHandle Call.InitBlasHandle
  Run.extUnit d.SetTensorOpMath (Call.SetMathMode h false)
  pure { self with blas_tensor_core_handle_ := h }

/-- The `CUDA_VERSION >= 11000` part of `InitBlasHandle()`. -/
def InitBlasTF32 (d : Driver) (self : GPUContextResource) : Run GPUContextResource := do
  let h ← Run.ext d.InitBlasTF32Handle Call.InitBlasHandle
  Run.extUnit d.SetTF32TensorOpMath (Call.SetMathMode h true)
  pure { self with blas_tf32_tensor_core_handle_ := h }

/-- The method `InitBlasHandle()`, with its conditional compilation. -/
def InitBlasHandle (cfg : Platform) (d : Driver) (self : GPUContextResource) :
    Run GPUContextResource := do
  let h ← Run.ext d.InitBlasHandle Call.InitBlasHandle
  let self := { self with blas_handle_ := h }
  match cfg with
  | .hip => pure self
  | .cuda v =>
    let self ← if 9000 ≤ v then InitBlasTensorCore d self else pure self
    if 11000 ≤ v then InitBlasTF32 d self else pure self

/-- The method `DestroyBlasHandle()`. -/
def DestroyBlasHandle (self : GPUContextResource) : List Call :=
  [Call.DestroyBlasHandle self.blas_handle_,
   Call.DestroyBlasHandle self.blas_tensor_core_handle_,
   Call.DestroyBlasHandle self.blas_tf32_tensor_core_handle_]

/-- The method `InitBlasLtHandle()`. -/
def InitBlasLtHandle (d : Driver) (self : GPUContextResource) : Run GPUContextResource := do
  let h ← Run.ext d.InitBlasLtHandle Call.InitBlasLtHandle
  pure { self with blaslt_handle_ := h }

/-- The method `DestroyBlasLtHandle()`. -/
def DestroyBlasLtHandle (self : GPUContextResource) : List Call :=
  [Call.DestroyBlasLtHandle self.blaslt_handle_]

/-- The method `InitSolverHandle()`. -/
def InitSolverHandle (d : Driver) (self : GPUContextResource) : Run GPUContextResource := do
  let h ← Run.ext d.InitSolverHandle Call.InitSolverHandle
  pure { self with solver_handle_ := h }

/-- The method `DestroySolverHandle()`. -/
def DestroySolverHandle (self : GPUContextResource) : List Call :=
  [Call.DestroySolverHandle self.solver_handle_]

/-- The method `InitSparseHandle()`. -/
def InitSparseHandle (d : Driver) (self : GPUContextResource) : Run GPUContextResource := do
  let h ← Run.ext d.InitSparseHandle Call.InitSparseHandle
  pure { self with sparse_handle_ := h }

/-- The method `DestroySparseHandle()`. -/
def DestroySparseHandle (self : GPUContextResource) : List Call :=
  [Call.DestroySparseHandle self.sparse_handle_]

/-- The stream part of `InitGPUResource(stream)`: a null argument makes the
bundle create and own a stream, any other is borrowed. -/
def InitStreamPart (d : Driver) (self : GPUContextResource) (stream : Stream) :
    Run GPUContextResource :=
  if stream = nullptr then do
    let s ← Run.ext d.InitStream Call.InitStream
    pure { self with owned_stream_ := true, stream_ := s }
  else
    pure { self with owned_stream_ := false, stream_ := stream }

/-- The body of `InitGPUResource(stream)` inside the scope of the device guard. -/
def InitGPUResourceBody (cfg : Platform) (d : Driver) (self : GPUContextResource)
    (stream : Stream) : Run GPUContextResource := do
  let self ← InitStreamPart d self stream
  let self ← InitGpuProperties d self
  let self ← InitGpuEigenDevice d self
  let self ← InitDnnHanlde d self
  let self ← InitBlasHandle cfg d self
  let self ← InitBlasLtHandle d self
  let self ← InitSolverHandle d self
  InitSparseHandle d self

/-- The method `InitGPUResource(stream)`: the `GPUDeviceGuard` is entered
first and left when the scope ends, by a return or by a throw. -/
def InitGPUResource (cfg : Platform) (d : Driver) (self : GPUContextResource)
    (stream : Stream) : Run GPUContextResource :=
  let r := InitGPUResourceBody cfg d self stream
  { res := r.res,
    calls := [Call.DeviceGuardEnter self.place_.device] ++ r.calls ++ [Call.DeviceGuardExit] }

/-- The constructor `GPUContextResource(place, stream)`.  When it throws no
object exists, and the destructor is not run. -/
def new (cfg : Platform) (d : Driver) (place : Place) (stream : Stream) :
    Run GPUContextResource :=
  InitGPUResource cfg d (blank place) stream

/-- The stream part of `DestroyGPUResource()`: an owned stream is destroyed, and
`PADDLE_ENFORCE_GPU_SUCCESS` throws when the driver call fails.  `streamDestroy`
is whether `cudaStreamDestroy` / `hipStreamDestroy` succeeds. -/
def DestroyStreamPart (streamDestroy : Bool) (self : GPUContextResource) :
    Run GPUContextResource :=
  if self.owned_stream_ then
    if streamDestroy then
      { res := .ok { self with stream_ := nullptr }, calls := [Call.StreamDestroy self.stream_] }
    else
      { res := .error .External, calls := [Call.StreamDestroy self.stream_] }
  else
    Run.ret self

/-- The handle part of `DestroyGPUResource()`: the five destroy methods, in the
order of the source.  The `phi::Destroy*Handle` calls are taken to return. -/
def DestroyHandles (self : GPUContextResource) : List Call :=
  DestroyDnnHandle self ++ DestroyBlasHandle self ++ DestroyBlasLtHandle self
    ++ DestroySolverHandle self ++ DestroySparseHandle self

/-- The method `DestroyGPUResource()`, which is the body of the destructor: the
object afterwards, or the error thrown, and the calls issued, in order. -/
def DestroyGPUResource (streamDestroy : Bool) (self : GPUContextResource) :
    Run GPUContextResource := do
  let self ← DestroyStreamPart streamDestroy self
  { res := .ok self, calls := DestroyHandles self }

/-- The accessor `GetStream()`. -/
def GetStream (self : GPUContextResource) : Stream := self.stream_

end GPUContextResource

/-- Device properties for concrete runs. -/
def GpuProperties.sample : GpuProperties :=
  { compute_capability := 80, runtime_version := 11080, driver_version := 12000,
    multi_process := 108, max_threads_per_mp := 2048, max_threads_per_block := 1024,
    max_grid_dim_size := (2147483647, 65535, 65535) }

/-- A driver whose every call succeeds, for concrete runs. -/
def Driver.sample (newStream : Stream) : Driver :=
  { InitStream := some newStream, InitGpuProperties := some GpuProperties.sample,
    GetAllocator := some 900,
    InitDnnHandle := some 11, InitBlasHandle := some 12, InitBlasTensorCoreHandle := some 13,
    SetTensorOpMath := true, InitBlasTF32Handle := some 14, SetTF32TensorOpMath := true,
    InitBlasLtHandle := some 15, InitSolverHandle := some 16, InitSparseHandle := some 17,
    StreamDestroy := true }

/-! ## `ResourceManager`: the GPU registry -/

/-- The two maps of the GPU registry. -/
inductive RegistryMap where
  | ref_count_
  | gpu_resources_
  deriving DecidableEq, Repr

/-- What an operation of the manager does, in order: taking and releasing
`gpu_mutex_`, a read or write of one of the registry maps, the entry into the
constructor or the destructor of a `GPUContextResource`, and the external
calls. -/
inductive Ev where
  | LockGpuMutex
  | UnlockGpuMutex
  | Access (m : RegistryMap)
  | Construct (place : Place) (stream : Stream)
  | Destruct (resource : GPUContextResource)
  | Ext (c : Call)
  deriving DecidableEq, Repr

/-- Modelled from the spec: the declarations of `ref_count_` and
`gpu_resources_` are in resource_manager.h, which is not among the sources.
The registry maps a stream to its reference count and to its bundle.  The
count is the C++ `int` that `RefCount` returns: `++` and `--` on it wrap modulo
2^32 (`wrapInt`), and a stored integer is read as the `int` it stands for. -/
structure ResourceManager where
  ref_count_ : UMap Int
  gpu_resources_ : UMap GPUContextResource
  deriving DecidableEq, Repr

/-- What one call of a manager operation leaves behind: the returned value or
the error thrown, the manager afterwards, and the trace of the call.  After
`Err.Terminated` the process has ended; the manager is then the one in which
the erase that ran the destructor has removed the entry. -/
structure Outcome (α : Type) where
  ret : Res α
  mgr : ResourceManager
  trace : List Ev

namespace ResourceManager

/-- The manager with no stream registered. -/
def empty : ResourceManager := { ref_count_ := [], gpu_resources_ := [] }

/-- The destruction of a bundle held by a `std::unique_ptr`: the destructor
runs `DestroyGPUResource()`, and a throw out of it ends the process. -/
def destruct (streamDestroy : Bool) (resource : GPUContextResource) : Res Unit × List Ev :=
  let r := resource.DestroyGPUResource streamDestroy
  (match r.res with
    | .ok _ => .ok ()
    | .error _ => .error .Terminated,
   Ev.Destruct resource :: r.calls.map Ev.Ext)

/-- The statement `gpu_resources_.erase(stream)`: the erased element, if any, is
destructed. -/
def eraseResource (streamDestroy : Bool) (m : ResourceManager) (stream : Stream) :
    Res Unit × ResourceManager × List Ev :=
  match m.gpu_resources_.lookup stream with
  | some resource =>
    ((destruct streamDestroy resource).1,
      { m with gpu_resources_ := m.gpu_resources_.erase stream },
      Ev.Access .gpu_resources_ :: (destruct streamDestroy resource).2)
  | none =>
    (.ok (), { m with gpu_resources_ := m.gpu_resources_.erase stream },
      [Ev.Access .gpu_resources_])

/-- The method `Increase(stream)`. -/
def Increase (m : ResourceManager) (stream : Stream) : Outcome Unit :=
  if m.ref_count_.count stream = 1 then
    { ret := .ok (),
      mgr := { m with ref_count_ := m.ref_count_.update stream (fun c => wrapInt (c + 1)) 0 },
      trace := [Ev.Access .ref_count_, Ev.Access .ref_count_] }
  else
    { ret := .error .InvalidArgument, mgr := m, trace := [Ev.Access .ref_count_] }

/-- The method `Decrease(stream)`.  `streamDestroy` is the answer of the driver
to the stream-destroy call of a bundle that this call destructs. -/
def Decrease (streamDestroy : Bool) (m : ResourceManager) (stream : Stream) : Outcome Unit :=
  if m.ref_count_.count stream = 1 then
    let m1 := { m with ref_count_ := m.ref_count_.update stream (fun c => wrapInt (c - 1)) 0 }
    if (m1.ref_count_.lookup stream).getD (0 : Int) = (0 : Int) then
      let m2 := { m1 with ref_count_ := m1.ref_count_.erase stream }
      let r := eraseResource streamDestroy m2 stream
      { ret := r.1, mgr := r.2.1,
        trace := [Ev.Access .ref_count_, Ev.Access .ref_count_, Ev.Access .ref_count_,
          Ev.Access .ref_count_] ++ r.2.2 }
    else
      { ret := .ok (), mgr := m1,
        trace := [Ev.Access .ref_count_, Ev.Access .ref_count_, Ev.Access .ref_count_] }
  else
    { ret := .error .InvalidArgument, mgr := m, trace := [Ev.Access .ref_count_] }

/-- The new-bundle branch of `InitGPUResource(place, stream)`, after the lock
is taken and the lookup has failed.  A bundle that `emplace` does not insert is
destructed before the call returns. -/
def InitGPUResourceNew (cfg : Platform) (d : Driver) (m : ResourceManager) (place : Place)
    (stream : Stream) : Outcome Stream :=
  let c := GPUContextResource.new cfg d place stream
  match c.res with
  | .error e =>
    { ret := .error e, mgr := m, trace := Ev.Construct place stream :: c.calls.map Ev.Ext }
  | .ok resource =>
    let s := resource.GetStream
    let m1 := { m with ref_count_ := m.ref_count_.update s (fun _ => 1) 0 }
    let m2 := { m1 with gpu_resources_ := m1.gpu_resources_.emplace s resource }
    if m1.gpu_resources_.count s = 0 then
      { ret := .ok s, mgr := m2,
        trace := Ev.Construct place stream :: c.calls.map Ev.Ext
          ++ [Ev.Access .ref_count_, Ev.Access .gpu_resources_] }
    else
      { ret := match (destruct d.StreamDestroy resource).1 with
          | .ok _ => .ok s
          | .error e => .error e,
        mgr := m2,
        trace := Ev.Construct place stream :: c.calls.map Ev.Ext
          ++ [Ev.Access .ref_count_, Ev.Access .gpu_resources_]
          ++ (destruct d.StreamDestroy resource).2 }

/-- The release of `gpu_mutex_` by the `std::lock_guard` when the scope is left,
by a return or by a throw; a terminated process releases nothing. -/
def unlockAfter {α : Type} (ret : Res α) : List Ev :=
  match ret with
  | .error .Terminated => []
  | _ => [Ev.UnlockGpuMutex]

/-- The method `InitGPUResource(place, stream)`.  The `std::lock_guard` takes
`gpu_mutex_` on entry and releases it when the scope is left. -/
def InitGPUResource (cfg : Platform) (d : Driver) (m : ResourceManager) (place : Place)
    (stream : Stream) : Outcome Stream :=
  if m.gpu_resources_.count stream ≠ 0 then
    let r := Increase m stream
    { ret := match r.ret with
        | .ok _ => .ok stream
        | .error e => .error e,
      mgr := r.mgr,
      trace := [Ev.LockGpuMutex, Ev.Access .gpu_resources_] ++ r.trace ++ [Ev.UnlockGpuMutex] }
  else
    let r := InitGPUResourceNew cfg d m place stream
    { ret := r.ret, mgr := r.mgr,
      trace := [Ev.LockGpuMutex, Ev.Access .gpu_resources_] ++ r.trace ++ unlockAfter r.ret }

/-- The method `DestroyGPUResource(stream)`. -/
def DestroyGPUResource (streamDestroy : Bool) (m : ResourceManager) (stream : Stream) :
    Outcome Unit :=
  if m.gpu_resources_.count stream = 1 then
    let r := Decrease streamDestroy m stream
    { ret := r.ret, mgr := r.mgr, trace := Ev.Access .gpu_resources_ :: r.trace }
  else
    { ret := .error .InvalidArgument, mgr := m, trace := [Ev.Access .gpu_resources_] }

/-- The method `GetGPUResource(stream)`. -/
def GetGPUResource (m : ResourceManager) (stream : Stream) : Outcome GPUContextResource :=
  if m.gpu_resources_.count stream = 1 then
    match m.gpu_resources_.lookup stream with
    | some resource =>
      { ret := .ok resource, mgr := m,
        trace := [Ev.Access .gpu_resources_, Ev.Access .gpu_resources_] }
    | none => { ret := .error .InvalidArgument, mgr := m, trace := [Ev.Access .gpu_resources_] }
  else
    { ret := .error .InvalidArgument, mgr := m, trace := [Ev.Access .gpu_resources_] }

/-- The method `RefCount(stream)`: the stored count, returned as an `int`. -/
def RefCount (m : ResourceManager) (stream : Stream) : Outcome Int :=
  if m.ref_count_.count stream = 0 then
    { ret := .ok 0, mgr := m, trace := [Ev.Access .ref_count_] }
  else
    { ret := .ok (wrapInt ((m.ref_count_.lookup stream).getD (0 : Int))), mgr := m,
      trace := [Ev.Access .ref_count_, Ev.Access .ref_count_] }

end ResourceManager

/-- A call of one of the mutating operations of the registry.  A release carries
the answer of the driver to the stream-destroy call it may issue. -/
inductive Op where
  | Init (d : Driver) (place : Place) (stream : Stream)
  | Destroy (streamDestroy : Bool) (stream : Stream)
  | Increase (stream : Stream)
  | Decrease (streamDestroy : Bool) (stream : Stream)
  deriving DecidableEq, Repr

/-- Whether the call returned, the manager after it and its trace. -/
def Op.run (cfg : Platform) (m : ResourceManager) : Op → Outcome Unit
  | .Init d place stream =>
    let r := m.InitGPUResource cfg d place stream
    { ret := match r.ret with
        | .ok _ => .ok ()
        | .error e => .error e,
      mgr := r.mgr, trace := r.trace }
  | .Destroy streamDestroy stream => m.DestroyGPUResource streamDestroy stream
  | .Increase stream => m.Increase stream
  | .Decrease streamDestroy stream => m.Decrease streamDestroy stream

/-- A sequence of calls made one after the other by a client that goes on after
a call that threw: the manager at the end and the whole trace. -/
def runAll (cfg : Platform) : ResourceManager → List Op → ResourceManager × List Ev
  | m, [] => (m, [])
  | m, op :: ops =>
    let r := op.run cfg m
    let (m', t) := runAll cfg r.mgr ops
    (m', r.trace ++ t)

/-- Whether every call of the sequence returns. -/
def allOk (cfg : Platform) : ResourceManager → List Op → Bool
  | _, [] => true
  | m, op :: ops => (op.run cfg m).ret.isOk && allOk cfg (op.run cfg m).mgr ops

/-- The states of the manager reachable from the empty one by calls of the
mutating operations, whether they return or throw. -/
inductive Reachable (cfg : Platform) : ResourceManager → Prop where
  | empty : Reachable cfg ResourceManager.empty
  | step (m : ResourceManager) (op : Op) : Reachable cfg m → Reachable cfg (op.run cfg m).mgr

/-! ## Vocabulary of the properties -/

namespace ResourceManager

/-- The stream is registered: it is a key of the registry, in both maps. -/
def Registered (m : ResourceManager) (s : Stream) : Prop :=
  m.gpu_resources_.count s = 1 ∧ m.ref_count_.count s = 1

/-- The stream is not registered: it is a key of neither map. -/
def Unregistered (m : ResourceManager) (s : Stream) : Prop :=
  m.gpu_resources_.count s = 0 ∧ m.ref_count_.count s = 0

instance (m : ResourceManager) (s : Stream) : Decidable (m.Registered s) := by
  unfold Registered; infer_instance

instance (m : ResourceManager) (s : Stream) : Decidable (m.Unregistered s) := by
  unfold Unregistered; infer_instance

/-- The value `RefCount(stream)` returns. -/
def countOf (m : ResourceManager) (s : Stream) : Int :=
  match (m.RefCount s).ret with
  | .ok c => c
  | .error _ => 0

end ResourceManager

/-- The build initialises `blas_tensor_core_handle_`: CUDA from 9000 on. -/
def Platform.hasTensorCore : Platform → Bool
  | .hip => false
  | .cuda v => decide (9000 ≤ v)

/-- The build initialises `blas_tf32_tensor_core_handle_`: CUDA from 11000 on. -/
def Platform.hasTF32 : Platform → Bool
  | .hip => false
  | .cuda v => decide (11000 ≤ v)

/-- Every external call that a construction for the argument `stream` makes on
this build returns: no step of the construction fails. -/
def Driver.succeeds (d : Driver) (cfg : Platform) (stream : Stream) : Bool :=
  (decide (stream ≠ nullptr) || d.InitStream.isSome)
    && d.InitGpuProperties.isSome && d.GetAllocator.isSome && d.InitDnnHandle.isSome
    && d.InitBlasHandle.isSome
    && (!cfg.hasTensorCore || (d.InitBlasTensorCoreHandle.isSome && d.SetTensorOpMath))
    && (!cfg.hasTF32 || (d.InitBlasTF32Handle.isSome && d.SetTF32TensorOpMath))
    && d.InitBlasLtHandle.isSome && d.InitSolverHandle.isSome && d.InitSparseHandle.isSome

/-- A sub-resource of a bundle that has an init call and a destroy call: the
stream and the backend-library handles. -/
inductive SubResource where
  | stream (s : Stream)
  | dnn (h : Handle)
  | blas (h : Handle)
  | blasLt (h : Handle)
  | solver (h : Handle)
  | sparse (h : Handle)
  deriving DecidableEq, Repr

/-- The sub-resource an init call produces, if the call is one. -/
def Call.initOf : Call → Option SubResource
  | .InitStream s => some (.stream s)
  | .InitDnnHandle h => some (.dnn h)
  | .InitBlasHandle h => some (.blas h)
  | .InitBlasLtHandle h => some (.blasLt h)
  | .InitSolverHandle h => some (.solver h)
  | .InitSparseHandle h => some (.sparse h)
  | _ => none

/-- The sub-resource a destroy call is issued on, if the call is one. -/
def Call.destroyOf : Call → Option SubResource
  | .StreamDestroy s => some (.stream s)
  | .DestroyDnnHandle h => some (.dnn h)
  | .DestroyBlasHandle h => some (.blas h)
  | .DestroyBlasLtHandle h => some (.blasLt h)
  | .DestroySolverHandle h => some (.solver h)
  | .DestroySparseHandle h => some (.sparse h)
  | _ => none

/-- The external calls of a trace, in order. -/
def extCalls (t : List Ev) : List Call :=
  t.filterMap (fun e => match e with
    | .Ext c => some c
    | _ => none)

/-- The sub-resources initialised by a sequence of calls, in order. -/
def initSeq (cs : List Call) : List SubResource := cs.filterMap Call.initOf

/-- The sub-resources a sequence of calls destroys, in order. -/
def destroySeq (cs : List Call) : List SubResource := cs.filterMap Call.destroyOf

/-- The event is the construction of a bundle for the stream argument `s`. -/
def Ev.isConstructOf (s : Stream) : Ev → Bool
  | .Construct _ t => decide (t = s)
  | _ => false

/-- The event is the destruction of a bundle whose stream is `s`. -/
def Ev.isDestructOf (s : Stream) : Ev → Bool
  | .Destruct resource => decide (resource.stream_ = s)
  | _ => false

/-- The event is a read or write of a registry map. -/
def Ev.isAccess : Ev → Bool
  | .Access _ => true
  | _ => false

/-- The call is an acquire of `s`: `InitGPUResource(place, s)`. -/
def Op.isAcquire (s : Stream) : Op → Bool
  | .Init _ _ t => decide (t = s)
  | _ => false

/-- The call is a release of `s`: `DestroyGPUResource(s)`. -/
def Op.isRelease (s : Stream) : Op → Bool
  | .Destroy _ t => decide (t = s)
  | _ => false

/-- The call is an acquire of `s` with a driver under which no step of a
construction fails, or a release of `s`. -/
def Op.acquiresOrReleases (cfg : Platform) (s : Stream) : Op → Bool
  | .Init d _ t => decide (t = s) && d.succeeds cfg s
  | .Destroy _ t => decide (t = s)
  | _ => false

/-- Every release of `s` in the sequence happens while `s` is registered. -/
def releasesWhileRegistered (cfg : Platform) (s : Stream) : ResourceManager → List Op → Prop
  | _, [] => True
  | m, op :: ops =>
    (op.isRelease s = true → m.Registered s) ∧ releasesWhileRegistered cfg s (op.run cfg m).mgr ops

/-- The number of calls of the sequence over which `RefCount(s)` goes from a
value `a` to a value `b` with `p a b`. -/
def transitions (cfg : Platform) (s : Stream) (p : Int → Int → Bool) :
    ResourceManager → List Op → Nat
  | _, [] => 0
  | m, op :: ops =>
    (if p (m.countOf s) ((op.run cfg m).mgr.countOf s) then 1 else 0)
      + transitions cfg s p (op.run cfg m).mgr ops

/-- The call would increment a count that is already `INT_MAX`. -/
def Op.overflows (m : ResourceManager) : Op → Prop
  | .Init _ _ s => m.countOf s = INT_MAX
  | .Increase s => m.countOf s = INT_MAX
  | _ => False

instance (m : ResourceManager) (op : Op) : Decidable (op.overflows m) := by
  cases op <;> unfold Op.overflows <;> infer_instance

/-- The states of the manager reachable from the empty one by calls of the
mutating operations, returning or throwing, none of which increments a count
that is already `INT_MAX`. -/
inductive ReachableInInt (cfg : Platform) : ResourceManager → Prop where
  | empty : ReachableInInt cfg ResourceManager.empty
  | step (m : ResourceManager) (op : Op) :
    ReachableInInt cfg m → ¬ op.overflows m → ReachableInInt cfg (op.run cfg m).mgr

/-- After every call of the sequence, the number of acquires of `s` so far
minus the number of releases of `s` so far, added to `c`, is at most
`INT_MAX`. -/
def countStaysInInt (s : Stream) : Int → List Op → Bool
  | _, [] => true
  | c, op :: ops =>
    decide (c + (if op.isAcquire s then 1 else 0) - (if op.isRelease s then 1 else 0) ≤ INT_MAX)
      && countStaysInInt s
        (c + (if op.isAcquire s then 1 else 0) - (if op.isRelease s then 1 else 0)) ops

/-! ## Concrete inputs and auxiliary predicates -/

/-- An allocator that hands out a buffer at the null address. -/
def nullAllocator : Nat → Res Allocation := fun n => .ok { ptr := nullptr, size := n }

/-- An allocator that hands out a buffer at address 4096. -/
def sampleAllocator : Nat → Res Allocation := fun n => .ok { ptr := 4096, size := n }

/-- A manager with stream 5 registered twice over, for concrete runs. -/
def sampleManager : ResourceManager :=
  (((ResourceManager.empty.InitGPUResource (.cuda 11000) (Driver.sample 7) ⟨0⟩ 5).mgr).InitGPUResource
    (.cuda 11000) (Driver.sample 7) ⟨0⟩ 5).mgr

/-- The bundle a construction returns, or the blank bundle when it throws. -/
def bundleOf (r : Run GPUContextResource) : GPUContextResource :=
  match r.res with
  | .ok b => b
  | .error _ => GPUContextResource.blank ⟨0⟩

/-- A driver whose `phi::InitSparseHandle` fails after every earlier call has
succeeded and created stream 7. -/
def Driver.failingSparse : Driver := { Driver.sample 7 with InitSparseHandle := none }

/-- The manager after stream 5 was borrowed on the empty manager. -/
def borrowed5 : ResourceManager :=
  (ResourceManager.empty.InitGPUResource (.cuda 11000) (Driver.sample 7) ⟨0⟩ 5).mgr

/-- The manager after a null-stream acquire on the empty manager whose driver
created the null stream. -/
def nullRegistered : ResourceManager :=
  (ResourceManager.empty.InitGPUResource (.cuda 11000) (Driver.sample nullptr) ⟨0⟩ nullptr).mgr

/-- The manager after a null-stream acquire on the empty manager whose driver
created stream 7: the bundle of 7 owns its stream. -/
def owned7 : ResourceManager :=
  (ResourceManager.empty.InitGPUResource (.cuda 11000) (Driver.sample 7) ⟨0⟩ nullptr).mgr

/-- The bundle that borrows stream 5 on device 0. -/
def bundle5 : GPUContextResource :=
  bundleOf (GPUContextResource.new (.cuda 11000) (Driver.sample 7) ⟨0⟩ 5)

/-- One acquire of stream 5. -/
def acquire5 : Op := .Init (Driver.sample 7) ⟨0⟩ 5

/-- The sequence of 2^31 acquires of stream 5. -/
def manyAcquires : List Op := List.replicate 2147483648 acquire5

/-- The manager in which stream 5 is registered with the count `INT_MAX`. -/
def atIntMax : ResourceManager :=
  { ref_count_ := [(5, 2147483647)], gpu_resources_ := [(5, bundle5)] }

/-- The registry invariant: the two maps have the same keys, no key occurs
twice, and every stored count is at least 1 and at most `INT_MAX`. -/
def RegistryInv (m : ResourceManager) : Prop :=
  m.ref_count_.keys = m.gpu_resources_.keys ∧ m.ref_count_.keys.Nodup ∧
    ∀ p ∈ m.ref_count_, (1 : Int) ≤ p.2 ∧ p.2 ≤ 2147483647

/-- The state of the registry for a borrowed stream `s` when its count is `c`. -/
def ResourceManager.Holds (m : ResourceManager) (s : Stream) (c : Int) : Prop :=
  (c = 0 ∧ m.Unregistered s) ∨
    (1 ≤ c ∧ c ≤ 2147483647 ∧ m.Registered s ∧ m.ref_count_.lookup s = some c ∧
      ∃ b, m.gpu_resources_.lookup s = some b ∧ b.stream_ = s ∧ b.owned_stream_ = false)

/-- Whether every release happens while the stream is registered can be
computed. -/
def releasesWhileRegistered.decide (cfg : Platform) (s : Stream) :
    ∀ (m : ResourceManager) (ops : List Op), Decidable (releasesWhileRegistered cfg s m ops)
  | _, [] => isTrue trivial
  | m, op :: ops =>
    match (inferInstance : Decidable (op.isRelease s = true → m.Registered s)),
      releasesWhileRegistered.decide cfg s (op.run cfg m).mgr ops with
    | isTrue h1, isTrue h2 => isTrue ⟨h1, h2⟩
    | isFalse h1, _ => isFalse (fun h => h1 h.1)
    | _, isFalse h2 => isFalse (fun h => h2 h.2)

instance (cfg : Platform) (s : Stream) (m : ResourceManager) (ops : List Op) :
    Decidable (releasesWhileRegistered cfg s m ops) :=
  releasesWhileRegistered.decide cfg s m ops

/-- Two acquires of stream 5, two releases, and one more acquire. -/
def sampleOps : List Op :=
  [.Init (Driver.sample 7) ⟨0⟩ 5, .Init (Driver.sample 8) ⟨1⟩ 5, .Destroy true 5, .Destroy false 5,
    .Init (Driver.sample 9) ⟨0⟩ 5]

/-! ## Lemmas on the map operations -/

namespace UMap
variable {V : Type}

theorem count_le_one (m : UMap V) (k : Nat) : m.count k ≤ 1 := by
  induction m with
  | nil => simp [count]
  | cons p t ih =>
    obtain ⟨k', v⟩ := p
    by_cases h : k' = k <;> simp [count, h, ih]

theorem count_eq_zero_iff (m : UMap V) (k : Nat) : m.count k = 0 ↔ k ∉ m.keys := by
  induction m with
  | nil => simp [count, keys]
  | cons p t ih =>
    obtain ⟨k', v⟩ := p
    by_cases h : k' = k
    · simp [count, keys, h]
    · simp only [count, h, if_false, ih, keys, List.map_cons, List.mem_cons, not_or]
      constructor
      · intro h1; exact ⟨fun e => h e.symm, h1⟩
      · intro h1; exact h1.2

theorem count_eq_one_iff (m : UMap V) (k : Nat) : m.count k = 1 ↔ k ∈ m.keys := by
  have h1 := count_le_one m k
  have h2 := count_eq_zero_iff m k
  constructor
  · intro h; by_contra hn; rw [← h2] at hn; omega
  · intro h; by_contra hn
    have : m.count k = 0 := by omega
    exact (h2.1 this) h

theorem count_ne_zero_iff (m : UMap V) (k : Nat) : m.count k ≠ 0 ↔ m.count k = 1 := by
  have h1 := count_le_one m k
  omega

theorem lookup_eq_none_iff (m : UMap V) (k : Nat) : m.lookup k = none ↔ m.count k = 0 := by
  induction m with
  | nil => simp [count, lookup]
  | cons p t ih =>
    obtain ⟨k', v⟩ := p
    by_cases h : k' = k <;> simp [count, lookup, h, ih]

theorem lookup_isSome_of_count (m : UMap V) (k : Nat) (h : m.count k = 1) :
    ∃ v, m.lookup k = some v := by
  cases hl : m.lookup k with
  | none => rw [lookup_eq_none_iff] at hl; omega
  | some v => exact ⟨v, rfl⟩

theorem keys_update_of_count (m : UMap V) (k : Nat) (f : V → V) (d : V) (h : m.count k = 1) :
    (m.update k f d).keys = m.keys := by
  induction m with
  | nil => simp [count] at h
  | cons p t ih =>
    obtain ⟨k', v⟩ := p
    by_cases hk : k' = k
    · simp [update, keys, hk]
    · simp only [count, hk, if_false] at h
      have := ih h
      simp only [keys] at this
      simp [update, keys, hk, this]

theorem keys_update_of_not (m : UMap V) (k : Nat) (f : V → V) (d : V) (h : m.count k = 0) :
    (m.update k f d).keys = m.keys ++ [k] := by
  induction m with
  | nil => simp [update, keys]
  | cons p t ih =>
    obtain ⟨k', v⟩ := p
    by_cases hk : k' = k
    · simp [count, hk] at h
    · simp only [count, hk, if_false] at h
      have := ih h
      simp only [keys] at this
      simp [update, keys, hk, this]

theorem emplace_of_count (m : UMap V) (k : Nat) (v : V) (h : m.count k = 1) :
    m.emplace k v = m := by
  induction m with
  | nil => simp [count] at h
  | cons p t ih =>
    obtain ⟨k', v'⟩ := p
    by_cases hk : k' = k
    · simp [emplace, hk]
    · simp only [count, hk, if_false] at h
      simp [emplace, hk, ih h]

theorem emplace_of_not (m : UMap V) (k : Nat) (v : V) (h : m.count k = 0) :
    m.emplace k v = m ++ [(k, v)] := by
  induction m with
  | nil => simp [emplace]
  | cons p t ih =>
    obtain ⟨k', v'⟩ := p
    by_cases hk : k' = k
    · simp [count, hk] at h
    · simp only [count, hk, if_false] at h
      simp [emplace, hk, ih h]

theorem erase_of_not (m : UMap V) (k : Nat) (h : m.count k = 0) : m.erase k = m := by
  induction m with
  | nil => simp [erase]
  | cons p t ih =>
    obtain ⟨k', v'⟩ := p
    by_cases hk : k' = k
    · simp [count, hk] at h
    · simp only [count, hk, if_false] at h
      simp [erase, hk, ih h]

theorem keys_erase (m : UMap V) (k : Nat) : (m.erase k).keys = m.keys.filter (fun x => x ≠ k) := by
  induction m with
  | nil => simp [erase, keys]
  | cons p t ih =>
    obtain ⟨k', v'⟩ := p
    simp only [keys] at ih
    by_cases hk : k' = k
    · simp [erase, keys, hk, ih]
    · simp [erase, keys, hk, ih]

theorem count_erase_self (m : UMap V) (k : Nat) : (m.erase k).count k = 0 := by
  rw [count_eq_zero_iff, keys_erase]; simp

theorem count_erase_ne (m : UMap V) (k k' : Nat) (h : k' ≠ k) :
    (m.erase k).count k' = m.count k' := by
  induction m with
  | nil => simp [erase]
  | cons p t ih =>
    obtain ⟨k2, v2⟩ := p
    by_cases hk : k2 = k
    · subst hk
      have h' : ¬ k2 = k' := fun e => h e.symm
      simp [erase, count, h', ih]
    · by_cases hk2 : k2 = k'
      · subst hk2; simp [erase, count, hk]
      · simp [erase, count, hk, hk2, ih]

theorem lookup_erase_ne (m : UMap V) (k k' : Nat) (h : k' ≠ k) :
    (m.erase k).lookup k' = m.lookup k' := by
  induction m with
  | nil => simp [erase]
  | cons p t ih =>
    obtain ⟨k2, v2⟩ := p
    by_cases hk : k2 = k
    · subst hk
      have h' : ¬ k2 = k' := fun e => h e.symm
      simp [erase, lookup, h', ih]
    · by_cases hk2 : k2 = k'
      · subst hk2; simp [erase, lookup, hk]
      · simp [erase, lookup, hk, hk2, ih]

theorem count_update_self (m : UMap V) (k : Nat) (f : V → V) (d : V) :
    (m.update k f d).count k = 1 := by
  induction m with
  | nil => simp [update, count]
  | cons p t ih =>
    obtain ⟨k2, v2⟩ := p
    by_cases hk : k2 = k <;> simp [update, count, hk, ih]

theorem count_update_ne (m : UMap V) (k k' : Nat) (f : V → V) (d : V) (h : k' ≠ k) :
    (m.update k f d).count k' = m.count k' := by
  induction m with
  | nil => simp [update, count]; exact fun e => h e.symm
  | cons p t ih =>
    obtain ⟨k2, v2⟩ := p
    by_cases hk : k2 = k
    · subst hk
      have h' : ¬ k2 = k' := fun e => h e.symm
      simp [update, count, h']
    · by_cases hk2 : k2 = k'
      · subst hk2; simp [update, count, hk]
      · simp [update, count, hk, hk2, ih]

theorem lookup_update_self (m : UMap V) (k : Nat) (f : V → V) (d : V) :
    (m.update k f d).lookup k = some (f ((m.lookup k).getD d)) := by
  induction m with
  | nil => simp [update, lookup]
  | cons p t ih =>
    obtain ⟨k2, v2⟩ := p
    by_cases hk : k2 = k <;> simp [update, lookup, hk, ih]

theorem lookup_update_ne (m : UMap V) (k k' : Nat) (f : V → V) (d : V) (h : k' ≠ k) :
    (m.update k f d).lookup k' = m.lookup k' := by
  induction m with
  | nil => simp [update, lookup]; exact fun e => h e.symm
  | cons p t ih =>
    obtain ⟨k2, v2⟩ := p
    by_cases hk : k2 = k
    · subst hk
      have h' : ¬ k2 = k' := fun e => h e.symm
      simp [update, lookup, h']
    · by_cases hk2 : k2 = k'
      · subst hk2; simp [update, lookup, hk]
      · simp [update, lookup, hk, hk2, ih]

theorem count_emplace_self (m : UMap V) (k : Nat) (v : V) : (m.emplace k v).count k = 1 := by
  induction m with
  | nil => simp [emplace, count]
  | cons p t ih =>
    obtain ⟨k2, v2⟩ := p
    by_cases hk : k2 = k <;> simp [emplace, count, hk, ih]

theorem count_emplace_ne (m : UMap V) (k k' : Nat) (v : V) (h : k' ≠ k) :
    (m.emplace k v).count k' = m.count k' := by
  induction m with
  | nil => simp [emplace, count]; exact fun e => h e.symm
  | cons p t ih =>
    obtain ⟨k2, v2⟩ := p
    by_cases hk : k2 = k
    · subst hk
      have h' : ¬ k2 = k' := fun e => h e.symm
      simp [emplace, count, h']
    · by_cases hk2 : k2 = k'
      · subst hk2; simp [emplace, count, hk]
      · simp [emplace, count, hk, hk2, ih]

theorem lookup_emplace_of_not (m : UMap V) (k : Nat) (v : V) (h : m.count k = 0) :
    (m.emplace k v).lookup k = some v := by
  induction m with
  | nil => simp [emplace, lookup]
  | cons p t ih =>
    obtain ⟨k2, v2⟩ := p
    by_cases hk : k2 = k
    · simp [count, hk] at h
    · simp only [count, hk, if_false] at h
      simp [emplace, lookup, hk, ih h]

theorem lookup_emplace_ne (m : UMap V) (k k' : Nat) (v : V) (h : k' ≠ k) :
    (m.emplace k v).lookup k' = m.lookup k' := by
  induction m with
  | nil => simp [emplace, lookup]; exact fun e => h e.symm
  | cons p t ih =>
    obtain ⟨k2, v2⟩ := p
    by_cases hk : k2 = k
    · subst hk
      have h' : ¬ k2 = k' := fun e => h e.symm
      simp [emplace, lookup, h']
    · by_cases hk2 : k2 = k'
      · subst hk2; simp [emplace, lookup, hk]
      · simp [emplace, lookup, hk, hk2, ih]

end UMap

/-! ## Lemmas on the construction of a bundle -/

namespace Run

theorem bind_eq {α β : Type} (x : Run α) (f : α → Run β) : (x >>= f) = x.andThen f := rfl

theorem pure_eq {α : Type} (a : α) : (pure a : Run α) = Run.ret a := rfl

theorem andThen_res_ok {α β : Type} (x : Run α) (f : α → Run β) (b : β)
    (h : (x.andThen f).res = .ok b) :
    ∃ a, x.res = .ok a ∧ (f a).res = .ok b ∧ (x.andThen f).calls = x.calls ++ (f a).calls := by
  unfold andThen at h ⊢
  cases hx : x.res with
  | ok a => rw [hx] at h; exact ⟨a, rfl, h, by simp⟩
  | error e => rw [hx] at h; simp at h

theorem andThen_of_ok {α β : Type} (x : Run α) (f : α → Run β) (a : α) (h : x.res = .ok a) :
    x.andThen f = { res := (f a).res, calls := x.calls ++ (f a).calls } := by
  unfold andThen; rw [h]

theorem andThen_destroySeq {α β : Type} (x : Run α) (f : α → Run β)
    (hx : destroySeq x.calls = []) (hf : ∀ a, destroySeq (f a).calls = []) :
    destroySeq (x.andThen f).calls = [] := by
  unfold andThen
  cases hr : x.res with
  | ok a => simp [destroySeq, List.filterMap_append] at hx hf ⊢; exact ⟨hx, hf a⟩
  | error e => simpa using hx

theorem ext_res_ok {α : Type} (answer : Option α) (c : α → Call) (a : α)
    (h : (ext answer c).res = .ok a) : answer = some a ∧ (ext answer c).calls = [c a] := by
  cases answer with
  | none => simp [ext] at h
  | some x => simp [ext] at h; subst h; simp [ext]

theorem ext_of_some {α : Type} (c : α → Call) (a : α) :
    ext (some a) c = { res := .ok a, calls := [c a] } := rfl

theorem extUnit_res_ok (answer : Bool) (c : Call) (h : (extUnit answer c).res = .ok ()) :
    answer = true ∧ (extUnit answer c).calls = [c] := by
  cases answer with
  | false => simp [extUnit] at h
  | true => simp [extUnit]

end Run

namespace GPUContextResource

theorem InitStreamPart_ok {d : Driver} {self b : GPUContextResource} {stream : Stream}
    (h : (InitStreamPart d self stream).res = .ok b) :
    (stream = nullptr →
      ∃ t, d.InitStream = some t ∧ b = { self with owned_stream_ := true, stream_ := t } ∧
        (InitStreamPart d self stream).calls = [Call.InitStream t]) ∧
    (stream ≠ nullptr →
      b = { self with owned_stream_ := false, stream_ := stream } ∧
        (InitStreamPart d self stream).calls = []) := by
  unfold InitStreamPart at h ⊢
  by_cases hs : stream = nullptr
  · simp only [hs, if_true, Run.bind_eq, Run.pure_eq] at h ⊢
    obtain ⟨t, h1, h2, h3⟩ := Run.andThen_res_ok _ _ _ h
    obtain ⟨h4, h5⟩ := Run.ext_res_ok _ _ _ h1
    refine ⟨fun _ => ⟨t, h4, ?_, ?_⟩, fun hn => absurd rfl hn⟩
    · simp [Run.ret] at h2; exact h2.symm
    · rw [h3, h5]; simp [Run.ret]
  · simp only [hs, if_false, Run.pure_eq] at h ⊢
    refine ⟨fun he => he.elim, fun _ => ⟨?_, rfl⟩⟩
    simp [Run.ret] at h; exact h.symm

theorem InitGpuProperties_ok {d : Driver} {self b : GPUContextResource}
    (h : (InitGpuProperties d self).res = .ok b) :
    ∃ p, d.InitGpuProperties = some p ∧
      b = { self with
        compute_capability_ := p.compute_capability, runtime_version_ := p.runtime_version,
        driver_version_ := p.driver_version, multi_process_ := p.multi_process,
        max_threads_per_mp_ := p.max_threads_per_mp,
        max_threads_per_block_ := p.max_threads_per_block,
        max_grid_dim_size_ := p.max_grid_dim_size } ∧
      (InitGpuProperties d self).calls = [Call.InitGpuProperties self.place_.device] := by
  unfold InitGpuProperties at h ⊢
  simp only [Run.bind_eq, Run.pure_eq] at h ⊢
  obtain ⟨t, h1, h2, h3⟩ := Run.andThen_res_ok _ _ _ h
  obtain ⟨h4, h5⟩ := Run.ext_res_ok _ _ _ h1
  refine ⟨t, h4, ?_, ?_⟩
  · simp [Run.ret] at h2; exact h2.symm
  · rw [h3, h5]; simp [Run.ret]

theorem InitGpuEigenDevice_ok {d : Driver} {self b : GPUContextResource}
    (h : (InitGpuEigenDevice d self).res = .ok b) :
    ∃ a, d.GetAllocator = some a ∧
      b = { self with
        eigen_stream_ := some (EigenGpuStreamDevice.new.Reinitialize self.stream_ a self.place_),
        gpu_eigen_device_ := true } ∧
      (InitGpuEigenDevice d self).calls = [Call.GetAllocator self.place_.device] := by
  unfold InitGpuEigenDevice at h ⊢
  simp only [Run.bind_eq, Run.pure_eq] at h ⊢
  obtain ⟨t, h1, h2, h3⟩ := Run.andThen_res_ok _ _ _ h
  obtain ⟨h4, h5⟩ := Run.ext_res_ok _ _ _ h1
  refine ⟨t, h4, ?_, ?_⟩
  · simp [Run.ret] at h2; exact h2.symm
  · rw [h3, h5]; simp [Run.ret]

theorem InitDnnHanlde_ok {d : Driver} {self b : GPUContextResource}
    (h : (InitDnnHanlde d self).res = .ok b) :
    ∃ x, d.InitDnnHandle = some x ∧ b = { self with dnn_handle_ := x } ∧
      (InitDnnHanlde d self).calls = [Call.InitDnnHandle x] := by
  unfold InitDnnHanlde at h ⊢
  simp only [Run.bind_eq, Run.pure_eq] at h ⊢
  obtain ⟨t, h1, h2, h3⟩ := Run.andThen_res_ok _ _ _ h
  obtain ⟨h4, h5⟩ := Run.ext_res_ok _ _ _ h1
  refine ⟨t, h4, ?_, ?_⟩
  · simp [Run.ret] at h2; exact h2.symm
  · rw [h3, h5]; simp [Run.ret]

theorem InitBlasLtHandle_ok {d : Driver} {self b : GPUContextResource}
    (h : (InitBlasLtHandle d self).res = .ok b) :
    ∃ x, d.InitBlasLtHandle = some x ∧ b = { self with blaslt_handle_ := x } ∧
      (InitBlasLtHandle d self).calls = [Call.InitBlasLtHandle x] := by
  unfold InitBlasLtHandle at h ⊢
  simp only [Run.bind_eq, Run.pure_eq] at h ⊢
  obtain ⟨t, h1, h2, h3⟩ := Run.andThen_res_ok _ _ _ h
  obtain ⟨h4, h5⟩ := Run.ext_res_ok _ _ _ h1
  refine ⟨t, h4, ?_, ?_⟩
  · simp [Run.ret] at h2; exact h2.symm
  · rw [h3, h5]; simp [Run.ret]

theorem InitSolverHandle_ok {d : Driver} {self b : GPUContextResource}
    (h : (InitSolverHandle d self).res = .ok b) :
    ∃ x, d.InitSolverHandle = some x ∧ b = { self with solver_handle_ := x } ∧
      (InitSolverHandle d self).calls = [Call.InitSolverHandle x] := by
  unfold InitSolverHandle at h ⊢
  simp only [Run.bind_eq, Run.pure_eq] at h ⊢
  obtain ⟨t, h1, h2, h3⟩ := Run.andThen_res_ok _ _ _ h
  obtain ⟨h4, h5⟩ := Run.ext_res_ok _ _ _ h1
  refine ⟨t, h4, ?_, ?_⟩
  · simp [Run.ret] at h2; exact h2.symm
  · rw [h3, h5]; simp [Run.ret]

theorem InitSparseHandle_ok {d : Driver} {self b : GPUContextResource}
    (h : (InitSparseHandle d self).res = .ok b) :
    ∃ x, d.InitSparseHandle = some x ∧ b = { self with sparse_handle_ := x } ∧
      (InitSparseHandle d self).calls = [Call.InitSparseHandle x] := by
  unfold InitSparseHandle at h ⊢
  simp only [Run.bind_eq, Run.pure_eq] at h ⊢
  obtain ⟨t, h1, h2, h3⟩ := Run.andThen_res_ok _ _ _ h
  obtain ⟨h4, h5⟩ := Run.ext_res_ok _ _ _ h1
  refine ⟨t, h4, ?_, ?_⟩
  · simp [Run.ret] at h2; exact h2.symm
  · rw [h3, h5]; simp [Run.ret]

theorem InitBlasTensorCore_ok {d : Driver} {self b : GPUContextResource}
    (h : (InitBlasTensorCore d self).res = .ok b) :
    ∃ x, d.InitBlasTensorCoreHandle = some x ∧ d.SetTensorOpMath = true ∧
      b = { self with blas_tensor_core_handle_ := x } ∧
      (InitBlasTensorCore d self).calls = [Call.InitBlasHandle x, Call.SetMathMode x false] := by
  unfold InitBlasTensorCore at h ⊢
  simp only [Run.bind_eq, Run.pure_eq] at h ⊢
  obtain ⟨t, h1, h2, h3⟩ := Run.andThen_res_ok _ _ _ h
  obtain ⟨h4, h5⟩ := Run.ext_res_ok _ _ _ h1
  obtain ⟨u, h6, h7, h8⟩ := Run.andThen_res_ok _ _ _ h2
  obtain ⟨h9, h10⟩ := Run.extUnit_res_ok _ _ h6
  refine ⟨t, h4, h9, ?_, ?_⟩
  · simp [Run.ret] at h7; exact h7.symm
  · rw [h3, h5, h8, h10]; simp [Run.ret]

theorem InitBlasTF32_ok {d : Driver} {self b : GPUContextResource}
    (h : (InitBlasTF32 d self).res = .ok b) :
    ∃ x, d.InitBlasTF32Handle = some x ∧ d.SetTF32TensorOpMath = true ∧
      b = { self with blas_tf32_tensor_core_handle_ := x } ∧
      (InitBlasTF32 d self).calls = [Call.InitBlasHandle x, Call.SetMathMode x true] := by
  unfold InitBlasTF32 at h ⊢
  simp only [Run.bind_eq, Run.pure_eq] at h ⊢
  obtain ⟨t, h1, h2, h3⟩ := Run.andThen_res_ok _ _ _ h
  obtain ⟨h4, h5⟩ := Run.ext_res_ok _ _ _ h1
  obtain ⟨u, h6, h7, h8⟩ := Run.andThen_res_ok _ _ _ h2
  obtain ⟨h9, h10⟩ := Run.extUnit_res_ok _ _ h6
  refine ⟨t, h4, h9, ?_, ?_⟩
  · simp [Run.ret] at h7; exact h7.symm
  · rw [h3, h5, h8, h10]; simp [Run.ret]

end GPUContextResource

namespace GPUContextResource

theorem InitBlasHandle_ok {cfg : Platform} {d : Driver} {self b : GPUContextResource}
    (h : (InitBlasHandle cfg d self).res = .ok b) :
    ∃ x1 x2 x3, d.InitBlasHandle = some x1 ∧
      (cfg.hasTensorCore = true → d.InitBlasTensorCoreHandle = some x2 ∧ d.SetTensorOpMath = true) ∧
      (cfg.hasTensorCore = false → x2 = self.blas_tensor_core_handle_) ∧
      (cfg.hasTF32 = true → d.InitBlasTF32Handle = some x3 ∧ d.SetTF32TensorOpMath = true) ∧
      (cfg.hasTF32 = false → x3 = self.blas_tf32_tensor_core_handle_) ∧
      b = { self with blas_handle_ := x1, blas_tensor_core_handle_ := x2,
                      blas_tf32_tensor_core_handle_ := x3 } ∧
      initSeq (InitBlasHandle cfg d self).calls =
        [SubResource.blas x1] ++ (if cfg.hasTensorCore then [SubResource.blas x2] else [])
          ++ (if cfg.hasTF32 then [SubResource.blas x3] else []) := by
  unfold InitBlasHandle at h ⊢
  simp only [Run.bind_eq, Run.pure_eq] at h ⊢
  obtain ⟨x1, h1, h2, h3⟩ := Run.andThen_res_ok _ _ _ h
  obtain ⟨h4, h5⟩ := Run.ext_res_ok _ _ _ h1
  rw [h3, h5]
  cases cfg with
  | hip =>
    simp only [Run.ret] at h2 ⊢
    refine ⟨x1, self.blas_tensor_core_handle_, self.blas_tf32_tensor_core_handle_, h4, ?_, ?_,
      ?_, ?_, ?_, ?_⟩
    · simp [Platform.hasTensorCore]
    · simp
    · simp [Platform.hasTF32]
    · simp
    · simp at h2; exact h2.symm
    · simp [initSeq, Call.initOf, Platform.hasTensorCore, Platform.hasTF32]
  | cuda v =>
    simp only at h2 ⊢
    by_cases hv9 : 9000 ≤ v
    · simp only [hv9, if_true] at h2 ⊢
      obtain ⟨b1, h6, h7, h8⟩ := Run.andThen_res_ok _ _ _ h2
      rw [h8]
      obtain ⟨x2, g1, g2, g3, g4⟩ := InitBlasTensorCore_ok h6
      rw [g4]
      by_cases hv11 : 11000 ≤ v
      · simp only [hv11, if_true] at h7 ⊢
        obtain ⟨x3, k1, k2, k3, k4⟩ := InitBlasTF32_ok h7
        rw [k4]
        refine ⟨x1, x2, x3, h4, ?_, ?_, ?_, ?_, ?_, ?_⟩
        · intro _; exact ⟨g1, g2⟩
        · simp [Platform.hasTensorCore, hv9]
        · intro _; exact ⟨k1, k2⟩
        · simp [Platform.hasTF32, hv11]
        · rw [k3, g3]
        · simp [initSeq, Call.initOf, Platform.hasTensorCore, Platform.hasTF32, hv9, hv11]
      · simp only [hv11, if_false, Run.ret] at h7 ⊢
        refine ⟨x1, x2, self.blas_tf32_tensor_core_handle_, h4, ?_, ?_, ?_, ?_, ?_, ?_⟩
        · intro _; exact ⟨g1, g2⟩
        · simp [Platform.hasTensorCore, hv9]
        · simp [Platform.hasTF32, hv11]
        · simp
        · simp at h7; rw [← h7, g3]
        · simp [initSeq, Call.initOf, Platform.hasTensorCore, Platform.hasTF32, hv9, hv11]
    · have hv11 : ¬ 11000 ≤ v := by omega
      simp only [hv9, if_false] at h2 ⊢
      obtain ⟨b1, h6, h7, h8⟩ := Run.andThen_res_ok _ _ _ h2
      rw [h8]
      simp only [hv11, if_false, Run.ret] at h6 h7 ⊢
      refine ⟨x1, self.blas_tensor_core_handle_, self.blas_tf32_tensor_core_handle_, h4, ?_, ?_,
        ?_, ?_, ?_, ?_⟩
      · simp [Platform.hasTensorCore, hv9]
      · simp
      · simp [Platform.hasTF32, hv11]
      · simp
      · simp at h6 h7; rw [← h7, ← h6]
      · simp [initSeq, Call.initOf, Platform.hasTensorCore, Platform.hasTF32, hv9, hv11]

end GPUContextResource

namespace GPUContextResource

theorem initSeq_append (a b : List Call) : initSeq (a ++ b) = initSeq a ++ initSeq b := by
  simp [initSeq, List.filterMap_append]

theorem new_ok {cfg : Platform} {d : Driver} {place : Place} {stream : Stream}
    {b : GPUContextResource} (h : (GPUContextResource.new cfg d place stream).res = .ok b) :
    b.place_ = place ∧ b.owned_stream_ = decide (stream = nullptr) ∧
    (stream ≠ nullptr → b.stream_ = stream) ∧
    (stream = nullptr → d.InitStream = some b.stream_) ∧
    initSeq (GPUContextResource.new cfg d place stream).calls =
      (if stream = nullptr then [SubResource.stream b.stream_] else [])
        ++ [SubResource.dnn b.dnn_handle_, SubResource.blas b.blas_handle_]
        ++ (if cfg.hasTensorCore then [SubResource.blas b.blas_tensor_core_handle_] else [])
        ++ (if cfg.hasTF32 then [SubResource.blas b.blas_tf32_tensor_core_handle_] else [])
        ++ [SubResource.blasLt b.blaslt_handle_, SubResource.solver b.solver_handle_,
            SubResource.sparse b.sparse_handle_] ∧
    d.succeeds cfg stream = true ∧
    (cfg.hasTensorCore = false → b.blas_tensor_core_handle_ = nullptr) ∧
    (cfg.hasTF32 = false → b.blas_tf32_tensor_core_handle_ = nullptr) := by
  unfold GPUContextResource.new GPUContextResource.InitGPUResource at h ⊢
  simp only [InitGPUResourceBody, Run.bind_eq] at h ⊢
  obtain ⟨b1, h1, h, c1⟩ := Run.andThen_res_ok _ _ _ h
  obtain ⟨b2, h2, h, c2⟩ := Run.andThen_res_ok _ _ _ h
  obtain ⟨b3, h3, h, c3⟩ := Run.andThen_res_ok _ _ _ h
  obtain ⟨b4, h4, h, c4⟩ := Run.andThen_res_ok _ _ _ h
  obtain ⟨b5, h5, h, c5⟩ := Run.andThen_res_ok _ _ _ h
  obtain ⟨b6, h6, h, c6⟩ := Run.andThen_res_ok _ _ _ h
  obtain ⟨b7, h7, h, c7⟩ := Run.andThen_res_ok _ _ _ h
  rw [c1, c2, c3, c4, c5, c6, c7]
  obtain ⟨p, e2, hb2, k2⟩ := InitGpuProperties_ok h2
  obtain ⟨a, e3, hb3, k3⟩ := InitGpuEigenDevice_ok h3
  obtain ⟨x4, e4, hb4, k4⟩ := InitDnnHanlde_ok h4
  obtain ⟨x1, x2, x3, e5, tc1, tc2, tf1, tf2, hb5, k5⟩ := InitBlasHandle_ok h5
  obtain ⟨x6, e6, hb6, k6⟩ := InitBlasLtHandle_ok h6
  obtain ⟨x7, e7, hb7, k7⟩ := InitSolverHandle_ok h7
  obtain ⟨x8, e8, hb8, k8⟩ := InitSparseHandle_ok h
  have hs := InitStreamPart_ok h1
  simp only [initSeq_append, k5]
  rw [k2, k3, k4, k6, k7, k8]
  have htc : cfg.hasTensorCore = false → x2 = nullptr := by
    intro hc
    rw [tc2 hc, hb4, hb3, hb2]
    by_cases hst : stream = nullptr
    · obtain ⟨t, -, hb1, -⟩ := hs.1 hst; rw [hb1]; rfl
    · obtain ⟨hb1, -⟩ := hs.2 hst; rw [hb1]; rfl
  have htf : cfg.hasTF32 = false → x3 = nullptr := by
    intro hc
    rw [tf2 hc, hb4, hb3, hb2]
    by_cases hst : stream = nullptr
    · obtain ⟨t, -, hb1, -⟩ := hs.1 hst; rw [hb1]; rfl
    · obtain ⟨hb1, -⟩ := hs.2 hst; rw [hb1]; rfl
  have hsucc : (!cfg.hasTensorCore || (d.InitBlasTensorCoreHandle.isSome && d.SetTensorOpMath))
      = true ∧ (!cfg.hasTF32 || (d.InitBlasTF32Handle.isSome && d.SetTF32TensorOpMath)) = true := by
    constructor
    · cases hc : cfg.hasTensorCore with
      | false => simp
      | true => obtain ⟨q1, q2⟩ := tc1 hc; simp [q1, q2]
    · cases hc : cfg.hasTF32 with
      | false => simp
      | true => obtain ⟨q1, q2⟩ := tf1 hc; simp [q1, q2]
  by_cases hst : stream = nullptr
  · obtain ⟨t, e1, hb1, k1⟩ := hs.1 hst
    rw [k1]
    subst hb8 hb7 hb6 hb5 hb4 hb3 hb2 hb1
    refine ⟨rfl, ?_, ?_, ?_, ?_, ?_, htc, htf⟩
    · simp [hst]
    · intro hn; exact absurd hst hn
    · intro _; exact e1
    · simp [initSeq, Call.initOf, hst]
    · simp [Driver.succeeds, e1, e2, e3, e4, e5, e6, e7, e8, hsucc.1, hsucc.2]
  · obtain ⟨hb1, k1⟩ := hs.2 hst
    rw [k1]
    subst hb8 hb7 hb6 hb5 hb4 hb3 hb2 hb1
    refine ⟨rfl, ?_, ?_, ?_, ?_, ?_, htc, htf⟩
    · simp [hst]
    · intro _; rfl
    · intro hn; exact absurd hn hst
    · simp [initSeq, Call.initOf, hst]
    · simp [Driver.succeeds, hst, e2, e3, e4, e5, e6, e7, e8, hsucc.1, hsucc.2]

end GPUContextResource

namespace Run

theorem ext_destroySeq {α : Type} (answer : Option α) (c : α → Call)
    (hc : ∀ a, (c a).destroyOf = none) : destroySeq (ext answer c).calls = [] := by
  cases answer with
  | none => simp [ext, destroySeq]
  | some a => simp [ext, destroySeq, hc a]

theorem extUnit_destroySeq (answer : Bool) (c : Call) (hc : c.destroyOf = none) :
    destroySeq (extUnit answer c).calls = [] := by
  cases answer <;> simp [extUnit, destroySeq, hc]

theorem ret_destroySeq {α : Type} (a : α) : destroySeq (ret a).calls = [] := by
  simp [ret, destroySeq]

end Run

namespace GPUContextResource

theorem InitBlasHandle_destroySeq (cfg : Platform) (d : Driver) (self : GPUContextResource) :
    destroySeq (InitBlasHandle cfg d self).calls = [] := by
  unfold InitBlasHandle
  simp only [Run.bind_eq, Run.pure_eq]
  apply Run.andThen_destroySeq
  · exact Run.ext_destroySeq _ _ (fun _ => rfl)
  · intro x
    cases cfg with
    | hip => exact Run.ret_destroySeq _
    | cuda v =>
      simp only
      have htf : ∀ y, destroySeq
          (if 11000 ≤ v then InitBlasTF32 d y else Run.ret y).calls = [] := by
        intro y
        split
        · unfold InitBlasTF32
          simp only [Run.bind_eq, Run.pure_eq]
          apply Run.andThen_destroySeq
          · exact Run.ext_destroySeq _ _ (fun _ => rfl)
          · intro y
            apply Run.andThen_destroySeq
            · exact Run.extUnit_destroySeq _ _ rfl
            · intro _; exact Run.ret_destroySeq _
        · exact Run.ret_destroySeq _
      split
      · apply Run.andThen_destroySeq
        · unfold InitBlasTensorCore
          simp only [Run.bind_eq, Run.pure_eq]
          apply Run.andThen_destroySeq
          · exact Run.ext_destroySeq _ _ (fun _ => rfl)
          · intro y
            apply Run.andThen_destroySeq
            · exact Run.extUnit_destroySeq _ _ rfl
            · intro _; exact Run.ret_destroySeq _
        · exact htf
      · apply Run.andThen_destroySeq
        · exact Run.ret_destroySeq _
        · exact htf

theorem new_destroySeq (cfg : Platform) (d : Driver) (place : Place) (stream : Stream) :
    destroySeq (GPUContextResource.new cfg d place stream).calls = [] := by
  unfold GPUContextResource.new GPUContextResource.InitGPUResource
  have hbody : destroySeq (InitGPUResourceBody cfg d (blank place) stream).calls = [] := by
    simp only [InitGPUResourceBody, Run.bind_eq]
    apply Run.andThen_destroySeq
    · unfold InitStreamPart
      split
      · simp only [Run.bind_eq, Run.pure_eq]
        apply Run.andThen_destroySeq
        · exact Run.ext_destroySeq _ _ (fun _ => rfl)
        · intro _; exact Run.ret_destroySeq _
      · exact Run.ret_destroySeq _
    intro b1
    apply Run.andThen_destroySeq
    · unfold InitGpuProperties
      simp only [Run.bind_eq, Run.pure_eq]
      apply Run.andThen_destroySeq
      · exact Run.ext_destroySeq _ _ (fun _ => rfl)
      · intro _; exact Run.ret_destroySeq _
    intro b2
    apply Run.andThen_destroySeq
    · unfold InitGpuEigenDevice
      simp only [Run.bind_eq, Run.pure_eq]
      apply Run.andThen_destroySeq
      · exact Run.ext_destroySeq _ _ (fun _ => rfl)
      · intro _; exact Run.ret_destroySeq _
    intro b3
    apply Run.andThen_destroySeq
    · unfold InitDnnHanlde
      simp only [Run.bind_eq, Run.pure_eq]
      apply Run.andThen_destroySeq
      · exact Run.ext_destroySeq _ _ (fun _ => rfl)
      · intro _; exact Run.ret_destroySeq _
    intro b4
    apply Run.andThen_destroySeq
    · exact InitBlasHandle_destroySeq _ _ _
    intro b5
    apply Run.andThen_destroySeq
    · unfold InitBlasLtHandle
      simp only [Run.bind_eq, Run.pure_eq]
      apply Run.andThen_destroySeq
      · exact Run.ext_destroySeq _ _ (fun _ => rfl)
      · intro _; exact Run.ret_destroySeq _
    intro b6
    apply Run.andThen_destroySeq
    · unfold InitSolverHandle
      simp only [Run.bind_eq, Run.pure_eq]
      apply Run.andThen_destroySeq
      · exact Run.ext_destroySeq _ _ (fun _ => rfl)
      · intro _; exact Run.ret_destroySeq _
    intro b7
    unfold InitSparseHandle
    simp only [Run.bind_eq, Run.pure_eq]
    apply Run.andThen_destroySeq
    · exact Run.ext_destroySeq _ _ (fun _ => rfl)
    · intro _; exact Run.ret_destroySeq _
  simp only [destroySeq, List.filterMap_append] at hbody ⊢
  simp [hbody, Call.destroyOf]

theorem InitBlasHandle_isOk (cfg : Platform) (d : Driver) (self : GPUContextResource)
    (h1 : d.InitBlasHandle.isSome = true)
    (h2 : (!cfg.hasTensorCore || (d.InitBlasTensorCoreHandle.isSome && d.SetTensorOpMath)) = true)
    (h3 : (!cfg.hasTF32 || (d.InitBlasTF32Handle.isSome && d.SetTF32TensorOpMath)) = true) :
    ∃ b, (InitBlasHandle cfg d self).res = .ok b := by
  obtain ⟨x1, e1⟩ := Option.isSome_iff_exists.1 h1
  unfold InitBlasHandle
  simp only [Run.bind_eq, Run.pure_eq, e1, Run.ext_of_some]
  rw [Run.andThen_of_ok _ _ x1 rfl]
  cases cfg with
  | hip => exact ⟨_, rfl⟩
  | cuda v =>
    simp only [Platform.hasTensorCore, Platform.hasTF32] at h2 h3
    simp only
    by_cases hv9 : 9000 ≤ v
    · simp only [hv9, decide_True, Bool.not_true, Bool.false_or, Bool.and_eq_true] at h2
      obtain ⟨x2, e2⟩ := Option.isSome_iff_exists.1 h2.1
      by_cases hv11 : 11000 ≤ v
      · simp only [hv11, decide_True, Bool.not_true, Bool.false_or, Bool.and_eq_true] at h3
        obtain ⟨x3, e3⟩ := Option.isSome_iff_exists.1 h3.1
        simp [hv9, hv11, InitBlasTensorCore, InitBlasTF32, Run.bind_eq, Run.pure_eq, e2, e3,
          h2.2, h3.2, Run.ext, Run.extUnit, Run.andThen, Run.ret]
      · simp [hv9, hv11, InitBlasTensorCore, Run.bind_eq, Run.pure_eq, e2,
          h2.2, Run.ext, Run.extUnit, Run.andThen, Run.ret]
    · have hv11 : ¬ 11000 ≤ v := by omega
      simp [hv9, hv11, Run.andThen, Run.ret]

theorem new_of_succeeds (cfg : Platform) (d : Driver) (place : Place) (stream : Stream)
    (h : d.succeeds cfg stream = true) :
    ∃ b, (GPUContextResource.new cfg d place stream).res = .ok b := by
  simp only [Driver.succeeds, Bool.and_eq_true] at h
  obtain ⟨⟨⟨⟨⟨⟨⟨⟨⟨hs, hp⟩, ha⟩, hd⟩, hb⟩, htc⟩, htf⟩, hlt⟩, hso⟩, hsp⟩ := h
  obtain ⟨p, ep⟩ := Option.isSome_iff_exists.1 hp
  obtain ⟨a, ea⟩ := Option.isSome_iff_exists.1 ha
  obtain ⟨xd, ed⟩ := Option.isSome_iff_exists.1 hd
  obtain ⟨xl, el⟩ := Option.isSome_iff_exists.1 hlt
  obtain ⟨xo, eo⟩ := Option.isSome_iff_exists.1 hso
  obtain ⟨xp, es⟩ := Option.isSome_iff_exists.1 hsp
  have hstream : ∃ b1, (InitStreamPart d (blank place) stream).res = .ok b1 := by
    unfold InitStreamPart
    by_cases hst : stream = nullptr
    · simp only [hst, decide_not, decide_True, Bool.not_true, Bool.false_or] at hs
      obtain ⟨t, et⟩ := Option.isSome_iff_exists.1 hs
      simp [hst, et, Run.bind_eq, Run.pure_eq, Run.ext, Run.andThen, Run.ret]
    · simp [hst, Run.pure_eq, Run.ret]
  obtain ⟨b1, r1⟩ := hstream
  unfold GPUContextResource.new GPUContextResource.InitGPUResource
  simp only [InitGPUResourceBody, Run.bind_eq]
  rw [Run.andThen_of_ok _ _ b1 r1]
  have r2 : ∃ b2, (InitGpuProperties d b1).res = .ok b2 := by
    simp [InitGpuProperties, ep, Run.bind_eq, Run.pure_eq, Run.ext, Run.andThen, Run.ret]
  obtain ⟨b2, r2⟩ := r2
  rw [Run.andThen_of_ok _ _ b2 r2]
  have r3 : ∃ b3, (InitGpuEigenDevice d b2).res = .ok b3 := by
    simp [InitGpuEigenDevice, ea, Run.bind_eq, Run.pure_eq, Run.ext, Run.andThen, Run.ret]
  obtain ⟨b3, r3⟩ := r3
  rw [Run.andThen_of_ok _ _ b3 r3]
  have r4 : ∃ b4, (InitDnnHanlde d b3).res = .ok b4 := by
    simp [InitDnnHanlde, ed, Run.bind_eq, Run.pure_eq, Run.ext, Run.andThen, Run.ret]
  obtain ⟨b4, r4⟩ := r4
  rw [Run.andThen_of_ok _ _ b4 r4]
  obtain ⟨b5, r5⟩ := InitBlasHandle_isOk cfg d b4 hb htc htf
  rw [Run.andThen_of_ok _ _ b5 r5]
  have r6 : ∃ b6, (InitBlasLtHandle d b5).res = .ok b6 := by
    simp [InitBlasLtHandle, el, Run.bind_eq, Run.pure_eq, Run.ext, Run.andThen, Run.ret]
  obtain ⟨b6, r6⟩ := r6
  rw [Run.andThen_of_ok _ _ b6 r6]
  have r7 : ∃ b7, (InitSolverHandle d b6).res = .ok b7 := by
    simp [InitSolverHandle, eo, Run.bind_eq, Run.pure_eq, Run.ext, Run.andThen, Run.ret]
  obtain ⟨b7, r7⟩ := r7
  rw [Run.andThen_of_ok _ _ b7 r7]
  simp [InitSparseHandle, es, Run.bind_eq, Run.pure_eq, Run.ext, Run.andThen, Run.ret]

theorem new_isOk_iff (cfg : Platform) (d : Driver) (place : Place) (stream : Stream) :
    (GPUContextResource.new cfg d place stream).res.isOk = true ↔ d.succeeds cfg stream = true := by
  constructor
  · intro h
    cases hr : (GPUContextResource.new cfg d place stream).res with
    | ok b => exact (new_ok hr).2.2.2.2.2.1
    | error e => rw [hr] at h; simp [Res.isOk] at h
  · intro h
    obtain ⟨b, hb⟩ := new_of_succeeds cfg d place stream h
    rw [hb]; rfl

end GPUContextResource

/-! ## Lemmas on the operations of the manager -/

theorem wrapInt_of_range (x : Int) (h1 : -2147483648 ≤ x) (h2 : x ≤ 2147483647) :
    wrapInt x = x := by
  unfold wrapInt; omega

theorem wrapInt_range (x : Int) : -2147483648 ≤ wrapInt x ∧ wrapInt x ≤ 2147483647 := by
  unfold wrapInt; omega

theorem wrapInt_wrapInt_add (a b : Int) : wrapInt (wrapInt a + b) = wrapInt (a + b) := by
  unfold wrapInt; omega

theorem wrapInt_pred_eq_zero (c : Int) : wrapInt (c - 1) = 0 ↔ wrapInt c = 1 := by
  unfold wrapInt; omega

theorem extCalls_nil : extCalls [] = [] := rfl

theorem extCalls_append (a b : List Ev) : extCalls (a ++ b) = extCalls a ++ extCalls b := by
  simp [extCalls, List.filterMap_append]

theorem extCalls_map_Ext (cs : List Call) : extCalls (cs.map Ev.Ext) = cs := by
  induction cs with
  | nil => rfl
  | cons c t ih => simp only [extCalls] at ih; simp [extCalls, ih]

theorem extCalls_cons_Ext (c : Call) (t : List Ev) : extCalls (Ev.Ext c :: t) = c :: extCalls t := by
  simp [extCalls]

theorem extCalls_cons_Lock (t : List Ev) : extCalls (Ev.LockGpuMutex :: t) = extCalls t := by
  simp [extCalls]

theorem extCalls_cons_Unlock (t : List Ev) : extCalls (Ev.UnlockGpuMutex :: t) = extCalls t := by
  simp [extCalls]

theorem extCalls_cons_Access (x : RegistryMap) (t : List Ev) :
    extCalls (Ev.Access x :: t) = extCalls t := by
  simp [extCalls]

theorem extCalls_cons_Construct (p : Place) (s : Stream) (t : List Ev) :
    extCalls (Ev.Construct p s :: t) = extCalls t := by
  simp [extCalls]

theorem extCalls_cons_Destruct (b : GPUContextResource) (t : List Ev) :
    extCalls (Ev.Destruct b :: t) = extCalls t := by
  simp [extCalls]

namespace GPUContextResource

theorem DestroyGPUResource_borrowed (ok : Bool) (b : GPUContextResource)
    (h : b.owned_stream_ = false) :
    b.DestroyGPUResource ok = { res := .ok b, calls := DestroyHandles b } := by
  simp [DestroyGPUResource, DestroyStreamPart, h, Run.bind_eq, Run.andThen, Run.ret]

theorem DestroyGPUResource_owned_ok (b : GPUContextResource) (h : b.owned_stream_ = true) :
    b.DestroyGPUResource true =
      { res := .ok { b with stream_ := nullptr },
        calls := Call.StreamDestroy b.stream_ :: DestroyHandles b } := by
  simp [DestroyGPUResource, DestroyStreamPart, h, Run.bind_eq, Run.andThen, DestroyHandles,
    DestroyDnnHandle, DestroyBlasHandle, DestroyBlasLtHandle, DestroySolverHandle,
    DestroySparseHandle]

theorem DestroyGPUResource_owned_fail (b : GPUContextResource) (h : b.owned_stream_ = true) :
    b.DestroyGPUResource false =
      { res := .error .External, calls := [Call.StreamDestroy b.stream_] } := by
  simp [DestroyGPUResource, DestroyStreamPart, h, Run.bind_eq, Run.andThen]

theorem StreamDestroy_not_mem_DestroyHandles (b : GPUContextResource) (t : Stream) :
    Call.StreamDestroy t ∉ DestroyHandles b := by
  simp [DestroyHandles, DestroyDnnHandle, DestroyBlasHandle, DestroyBlasLtHandle,
    DestroySolverHandle, DestroySparseHandle]

theorem StreamDestroy_not_mem_of_borrowed (ok : Bool) (b : GPUContextResource)
    (h : b.owned_stream_ = false) (t : Stream) :
    Call.StreamDestroy t ∉ (b.DestroyGPUResource ok).calls := by
  rw [DestroyGPUResource_borrowed ok b h]
  exact StreamDestroy_not_mem_DestroyHandles b t

theorem StreamDestroy_count_of_owned (ok : Bool) (b : GPUContextResource)
    (h : b.owned_stream_ = true) :
    (b.DestroyGPUResource ok).calls.count (Call.StreamDestroy b.stream_) = 1 := by
  cases ok with
  | true =>
    rw [DestroyGPUResource_owned_ok b h]
    simp only [List.count_cons_self]
    rw [List.count_eq_zero.2 (StreamDestroy_not_mem_DestroyHandles b _)]
  | false =>
    rw [DestroyGPUResource_owned_fail b h]
    simp

end GPUContextResource

namespace ResourceManager

theorem countOf_eq (m : ResourceManager) (s : Stream) :
    m.countOf s = wrapInt ((m.ref_count_.lookup s).getD 0) := by
  unfold countOf RefCount
  by_cases h : m.ref_count_.count s = 0
  · simp [h, (UMap.lookup_eq_none_iff _ _).2 h, wrapInt]
  · simp [h]

theorem RefCount_ret (m : ResourceManager) (s : Stream) :
    (m.RefCount s).ret = .ok (m.countOf s) := by
  unfold countOf RefCount
  by_cases h : m.ref_count_.count s = 0 <;> simp [h]

theorem RefCount_mgr (m : ResourceManager) (s : Stream) : (m.RefCount s).mgr = m := by
  unfold RefCount
  by_cases h : m.ref_count_.count s = 0 <;> simp [h]

theorem GetGPUResource_ret (m : ResourceManager) (s : Stream) :
    (m.GetGPUResource s).ret =
      match m.gpu_resources_.lookup s with
      | some b => .ok b
      | none => .error .InvalidArgument := by
  unfold GetGPUResource
  by_cases h : m.gpu_resources_.count s = 1
  · obtain ⟨b, hb⟩ := UMap.lookup_isSome_of_count _ _ h
    simp [h, hb]
  · have h0 : m.gpu_resources_.count s = 0 := by
      have := UMap.count_le_one m.gpu_resources_ s
      omega
    simp [h, (UMap.lookup_eq_none_iff _ _).2 h0]

theorem GetGPUResource_mgr (m : ResourceManager) (s : Stream) : (m.GetGPUResource s).mgr = m := by
  unfold GetGPUResource
  by_cases h : m.gpu_resources_.count s = 1
  · obtain ⟨b, hb⟩ := UMap.lookup_isSome_of_count _ _ h
    simp [h, hb]
  · simp [h]

theorem destruct_trace (ok : Bool) (b : GPUContextResource) :
    (destruct ok b).2 = Ev.Destruct b :: (b.DestroyGPUResource ok).calls.map Ev.Ext := rfl

theorem destruct_ret_borrowed (ok : Bool) (b : GPUContextResource) (h : b.owned_stream_ = false) :
    (destruct ok b).1 = .ok () := by
  simp [destruct, GPUContextResource.DestroyGPUResource_borrowed ok b h]

theorem destruct_ret_ok (b : GPUContextResource) : (destruct true b).1 = .ok () := by
  cases h : b.owned_stream_ with
  | false => exact destruct_ret_borrowed true b h
  | true => simp [destruct, GPUContextResource.DestroyGPUResource_owned_ok b h]

theorem destruct_ret_fail (b : GPUContextResource) (h : b.owned_stream_ = true) :
    (destruct false b).1 = .error .Terminated := by
  simp [destruct, GPUContextResource.DestroyGPUResource_owned_fail b h]

theorem destruct_ret_cases (ok : Bool) (b : GPUContextResource) :
    (destruct ok b).1 = .ok () ∨
      ((destruct ok b).1 = .error .Terminated ∧ ok = false ∧ b.owned_stream_ = true) := by
  cases ok with
  | true => exact Or.inl (destruct_ret_ok b)
  | false =>
    cases h : b.owned_stream_ with
    | false => exact Or.inl (destruct_ret_borrowed false b h)
    | true => exact Or.inr ⟨destruct_ret_fail b h, rfl, rfl⟩

theorem extCalls_destruct (ok : Bool) (b : GPUContextResource) :
    extCalls (destruct ok b).2 = (b.DestroyGPUResource ok).calls := by
  simp [destruct_trace, extCalls_cons_Destruct, extCalls_map_Ext]

theorem extCalls_unlockAfter {α : Type} (r : Res α) : extCalls (unlockAfter r) = [] := by
  unfold unlockAfter
  split <;> rfl

theorem Destruct_count_destruct (ok : Bool) (b : GPUContextResource) :
    (destruct ok b).2.count (Ev.Destruct b) = 1 := by
  rw [destruct_trace, List.count_cons_self]
  have : ∀ cs : List Call, (cs.map Ev.Ext).count (Ev.Destruct b) = 0 := by
    intro cs
    rw [List.count_eq_zero]
    simp
  rw [this]

theorem InitGPUResource_reuse (cfg : Platform) (d : Driver) (m : ResourceManager) (place : Place)
    (s : Stream) (h : m.Registered s) :
    m.InitGPUResource cfg d place s =
      { ret := .ok s,
        mgr := { m with ref_count_ := m.ref_count_.update s (fun c => wrapInt (c + 1)) 0 },
        trace := [Ev.LockGpuMutex, Ev.Access .gpu_resources_, Ev.Access .ref_count_,
          Ev.Access .ref_count_, Ev.UnlockGpuMutex] } := by
  obtain ⟨hg, hr⟩ := h
  simp [ResourceManager.InitGPUResource, hg, ResourceManager.Increase, hr]

theorem InitGPUResource_new_mgr (cfg : Platform) (d : Driver) (m : ResourceManager) (place : Place)
    (stream : Stream) (b : GPUContextResource) (h : m.gpu_resources_.count stream = 0)
    (hb : (GPUContextResource.new cfg d place stream).res = .ok b) :
    (m.InitGPUResource cfg d place stream).mgr =
      { ref_count_ := m.ref_count_.update b.stream_ (fun _ => 1) 0,
        gpu_resources_ := m.gpu_resources_.emplace b.stream_ b } := by
  simp only [ResourceManager.InitGPUResource, h, ne_eq, not_true_eq_false, if_false,
    ResourceManager.InitGPUResourceNew, hb, GPUContextResource.GetStream]
  split <;> rfl

theorem InitGPUResource_new_fresh (cfg : Platform) (d : Driver) (m : ResourceManager)
    (place : Place) (stream : Stream) (b : GPUContextResource)
    (h : m.gpu_resources_.count stream = 0)
    (hb : (GPUContextResource.new cfg d place stream).res = .ok b)
    (hf : m.gpu_resources_.count b.stream_ = 0) :
    m.InitGPUResource cfg d place stream =
      { ret := .ok b.stream_,
        mgr := { ref_count_ := m.ref_count_.update b.stream_ (fun _ => 1) 0,
                 gpu_resources_ := m.gpu_resources_.emplace b.stream_ b },
        trace := [Ev.LockGpuMutex, Ev.Access .gpu_resources_] ++
          (Ev.Construct place stream ::
            (GPUContextResource.new cfg d place stream).calls.map Ev.Ext
            ++ [Ev.Access .ref_count_, Ev.Access .gpu_resources_])
          ++ [Ev.UnlockGpuMutex] } := by
  simp [ResourceManager.InitGPUResource, h, ResourceManager.InitGPUResourceNew, hb,
    GPUContextResource.GetStream, hf, unlockAfter]

theorem InitGPUResource_new_error (cfg : Platform) (d : Driver) (m : ResourceManager)
    (place : Place) (stream : Stream) (e : Err) (h : m.gpu_resources_.count stream = 0)
    (hb : (GPUContextResource.new cfg d place stream).res = .error e) :
    m.InitGPUResource cfg d place stream =
      { ret := .error e, mgr := m,
        trace := [Ev.LockGpuMutex, Ev.Access .gpu_resources_] ++
          (Ev.Construct place stream ::
            (GPUContextResource.new cfg d place stream).calls.map Ev.Ext)
          ++ unlockAfter (Res.error e : Res Stream) } := by
  simp [ResourceManager.InitGPUResource, h, ResourceManager.InitGPUResourceNew, hb]

theorem Decrease_last (ok : Bool) (m : ResourceManager) (s : Stream) (c : Int)
    (hr : m.ref_count_.count s = 1) (hc : m.ref_count_.lookup s = some c)
    (hz : wrapInt (c - 1) = 0) :
    m.Decrease ok s =
      { ret := (match m.gpu_resources_.lookup s with
          | some b => (destruct ok b).1
          | none => .ok ()),
        mgr := { ref_count_ := (m.ref_count_.update s (fun c => wrapInt (c - 1)) 0).erase s,
                 gpu_resources_ := m.gpu_resources_.erase s },
        trace := [Ev.Access .ref_count_, Ev.Access .ref_count_, Ev.Access .ref_count_,
          Ev.Access .ref_count_, Ev.Access .gpu_resources_] ++
          (match m.gpu_resources_.lookup s with
            | some b => (destruct ok b).2
            | none => []) } := by
  unfold Decrease
  simp only [hr, if_true, UMap.lookup_update_self, hc]
  simp only [Option.getD_some, hz, if_true, eraseResource]
  cases m.gpu_resources_.lookup s <;> simp

theorem Decrease_more (ok : Bool) (m : ResourceManager) (s : Stream) (c : Int)
    (hr : m.ref_count_.count s = 1) (hc : m.ref_count_.lookup s = some c)
    (h1 : wrapInt (c - 1) ≠ 0) :
    m.Decrease ok s =
      { ret := .ok (),
        mgr := { m with ref_count_ := m.ref_count_.update s (fun c => wrapInt (c - 1)) 0 },
        trace := [Ev.Access .ref_count_, Ev.Access .ref_count_, Ev.Access .ref_count_] } := by
  unfold Decrease
  simp [hr, UMap.lookup_update_self, hc, h1]

theorem Decrease_unknown (ok : Bool) (m : ResourceManager) (s : Stream)
    (hr : ¬ m.ref_count_.count s = 1) :
    m.Decrease ok s =
      { ret := .error .InvalidArgument, mgr := m, trace := [Ev.Access .ref_count_] } := by
  simp [Decrease, hr]

theorem lookup_of_countOf_one (m : ResourceManager) (s : Stream) (h : m.countOf s = 1) :
    ∃ c, m.ref_count_.lookup s = some c ∧ wrapInt (c - 1) = 0 ∧ m.ref_count_.count s = 1 := by
  rw [countOf_eq] at h
  cases hl : m.ref_count_.lookup s with
  | none => rw [hl] at h; simp [wrapInt] at h
  | some c =>
    rw [hl] at h
    simp only [Option.getD_some] at h
    refine ⟨c, rfl, (wrapInt_pred_eq_zero c).2 h, ?_⟩
    by_contra hn
    have h0 : m.ref_count_.count s = 0 := by
      have := UMap.count_le_one m.ref_count_ s
      omega
    rw [← UMap.lookup_eq_none_iff] at h0
    rw [h0] at hl; simp at hl

theorem lookup_of_GetGPUResource (m : ResourceManager) (s : Stream) (b : GPUContextResource)
    (h : (m.GetGPUResource s).ret = .ok b) :
    m.gpu_resources_.lookup s = some b ∧ m.gpu_resources_.count s = 1 := by
  rw [GetGPUResource_ret] at h
  cases hl : m.gpu_resources_.lookup s with
  | none => rw [hl] at h; simp at h
  | some c =>
    rw [hl] at h; simp at h; subst h
    refine ⟨rfl, ?_⟩
    by_contra hn
    have h0 : m.gpu_resources_.count s = 0 := by
      have := UMap.count_le_one m.gpu_resources_ s
      omega
    rw [← UMap.lookup_eq_none_iff] at h0
    rw [h0] at hl; simp at hl

theorem DestroyGPUResource_last (ok : Bool) (m : ResourceManager) (s : Stream)
    (b : GPUContextResource) (hb : (m.GetGPUResource s).ret = .ok b)
    (hc : (m.RefCount s).ret = .ok 1) :
    m.DestroyGPUResource ok s =
      { ret := (destruct ok b).1,
        mgr := { ref_count_ := (m.ref_count_.update s (fun c => wrapInt (c - 1)) 0).erase s,
                 gpu_resources_ := m.gpu_resources_.erase s },
        trace := [Ev.Access .gpu_resources_, Ev.Access .ref_count_, Ev.Access .ref_count_,
          Ev.Access .ref_count_, Ev.Access .ref_count_, Ev.Access .gpu_resources_]
          ++ (destruct ok b).2 } := by
  rw [RefCount_ret] at hc
  have hc1 : m.countOf s = 1 := by simpa using hc
  obtain ⟨c, hl, hz, hr⟩ := lookup_of_countOf_one m s hc1
  obtain ⟨hg, hgc⟩ := lookup_of_GetGPUResource m s b hb
  unfold DestroyGPUResource
  rw [Decrease_last ok m s c hr hl hz]
  simp [hgc, hg]

theorem DestroyGPUResource_more (ok : Bool) (m : ResourceManager) (s : Stream) (c : Int)
    (hg : m.gpu_resources_.count s = 1) (hr : m.ref_count_.count s = 1)
    (hc : m.ref_count_.lookup s = some c) (h1 : wrapInt (c - 1) ≠ 0) :
    m.DestroyGPUResource ok s =
      { ret := .ok (),
        mgr := { m with ref_count_ := m.ref_count_.update s (fun c => wrapInt (c - 1)) 0 },
        trace := [Ev.Access .gpu_resources_, Ev.Access .ref_count_, Ev.Access .ref_count_,
          Ev.Access .ref_count_] } := by
  unfold DestroyGPUResource
  rw [Decrease_more ok m s c hr hc h1]
  simp [hg]

theorem DestroyGPUResource_last_unregistered (m : ResourceManager) (s : Stream) :
    ResourceManager.Unregistered
      { ref_count_ := (m.ref_count_.update s (fun c => wrapInt (c - 1)) 0).erase s,
        gpu_resources_ := m.gpu_resources_.erase s } s :=
  ⟨UMap.count_erase_self _ _, UMap.count_erase_self _ _⟩

theorem RefCount_of_unregistered (m : ResourceManager) (s : Stream) (h : m.Unregistered s) :
    (m.RefCount s).ret = .ok 0 := by
  simp [RefCount, h.2]

end ResourceManager

namespace UMap
variable {V : Type}

theorem mem_update (m : UMap V) (k : Nat) (f : V → V) (d : V) (p : Nat × V)
    (h : p ∈ m.update k f d) : p ∈ m ∨ (p.1 = k ∧ ∃ v, p.2 = f v ∧ (v = d ∨ (k, v) ∈ m)) := by
  induction m with
  | nil =>
    simp only [update, List.mem_singleton] at h
    subst h
    exact Or.inr ⟨rfl, d, rfl, Or.inl rfl⟩
  | cons q t ih =>
    obtain ⟨k2, v2⟩ := q
    by_cases hk : k2 = k
    · simp only [update, hk, if_true, List.mem_cons] at h
      rcases h with h | h
      · subst h
        exact Or.inr ⟨rfl, v2, rfl, Or.inr (by simp [hk])⟩
      · exact Or.inl (by simp [h])
    · simp only [update, hk, if_false, List.mem_cons] at h
      rcases h with h | h
      · exact Or.inl (by simp [h])
      · rcases ih h with h1 | ⟨h1, v, h2, h3⟩
        · exact Or.inl (by simp [h1])
        · refine Or.inr ⟨h1, v, h2, ?_⟩
          rcases h3 with h3 | h3
          · exact Or.inl h3
          · exact Or.inr (by simp [h3])

theorem mem_update_of_count (m : UMap V) (k : Nat) (f : V → V) (d : V) (p : Nat × V)
    (hc : m.count k = 1) (h : p ∈ m.update k f d) :
    p ∈ m ∨ (p.1 = k ∧ ∃ v, p.2 = f v ∧ (k, v) ∈ m) := by
  induction m with
  | nil => simp [count] at hc
  | cons q t ih =>
    obtain ⟨k2, v2⟩ := q
    by_cases hk : k2 = k
    · simp only [update, hk, if_true, List.mem_cons] at h
      rcases h with h | h
      · subst h
        exact Or.inr ⟨rfl, v2, rfl, by simp [hk]⟩
      · exact Or.inl (by simp [h])
    · simp only [count, hk, if_false] at hc
      simp only [update, hk, if_false, List.mem_cons] at h
      rcases h with h | h
      · exact Or.inl (by simp [h])
      · rcases ih hc h with h1 | ⟨h1, v, h2, h3⟩
        · exact Or.inl (by simp [h1])
        · exact Or.inr ⟨h1, v, h2, by simp [h3]⟩

theorem mem_erase (m : UMap V) (k : Nat) (p : Nat × V) (h : p ∈ m.erase k) :
    p ∈ m ∧ p.1 ≠ k := by
  induction m with
  | nil => simp [erase] at h
  | cons q t ih =>
    obtain ⟨k2, v2⟩ := q
    by_cases hk : k2 = k
    · simp only [erase, hk, if_true] at h
      obtain ⟨h1, h2⟩ := ih h
      exact ⟨by simp [h1], h2⟩
    · simp only [erase, hk, if_false, List.mem_cons] at h
      rcases h with h | h
      · subst h; exact ⟨by simp, hk⟩
      · obtain ⟨h1, h2⟩ := ih h
        exact ⟨by simp [h1], h2⟩

theorem mem_of_lookup (m : UMap V) (k : Nat) (v : V) (h : m.lookup k = some v) : (k, v) ∈ m := by
  induction m with
  | nil => simp [lookup] at h
  | cons q t ih =>
    obtain ⟨k2, v2⟩ := q
    by_cases hk : k2 = k
    · simp only [lookup, hk, if_true, Option.some.injEq] at h
      subst h; simp [hk]
    · simp only [lookup, hk, if_false] at h
      simp [ih h]

theorem lookup_of_mem_nodup (m : UMap V) (k : Nat) (v : V) (hn : m.keys.Nodup) (h : (k, v) ∈ m) :
    m.lookup k = some v := by
  induction m with
  | nil => simp at h
  | cons q t ih =>
    obtain ⟨k2, v2⟩ := q
    simp only [keys, List.map_cons, List.nodup_cons] at hn
    simp only [List.mem_cons, Prod.mk.injEq] at h
    rcases h with ⟨h1, h2⟩ | h
    · subst h1 h2; simp [lookup]
    · have hk : k2 ≠ k := by
        intro e; subst e
        exact hn.1 (List.mem_map.2 ⟨(k2, v), h, rfl⟩)
      simp only [lookup, hk, if_false]
      exact ih hn.2 h

theorem keys_emplace_of_not (m : UMap V) (k : Nat) (v : V) (h : m.count k = 0) :
    (m.emplace k v).keys = m.keys ++ [k] := by
  rw [emplace_of_not m k v h]; simp [keys]

theorem nodup_keys_erase (m : UMap V) (k : Nat) (h : m.keys.Nodup) : (m.erase k).keys.Nodup := by
  rw [keys_erase]; exact h.filter _

theorem nodup_keys_append (m : UMap V) (k : Nat) (h : m.keys.Nodup) (hk : m.count k = 0) :
    (m.keys ++ [k]).Nodup := by
  rw [count_eq_zero_iff] at hk
  rw [List.nodup_append]
  refine ⟨h, by simp, ?_⟩
  intro a ha hb
  simp only [List.mem_singleton] at hb
  subst hb; exact hk ha

theorem count_congr_keys {W : Type} (m : UMap V) (n : UMap W) (h : m.keys = n.keys) (k : Nat) :
    m.count k = n.count k := by
  by_cases hc : m.count k = 0
  · have : n.count k = 0 := by
      rw [count_eq_zero_iff] at hc ⊢; rw [← h]; exact hc
    rw [hc, this]
  · have h1 : m.count k = 1 := by
      have := count_le_one m k
      omega
    have : n.count k = 1 := by
      rw [count_eq_one_iff] at h1 ⊢; rw [← h]; exact h1
    rw [h1, this]

end UMap

namespace ResourceManager

theorem countOf_of_inv (m : ResourceManager) (s : Stream) (c : Int) (h : RegistryInv m)
    (hc : m.ref_count_.lookup s = some c) : m.countOf s = c ∧ 1 ≤ c ∧ c ≤ 2147483647 := by
  have hr := h.2.2 _ (UMap.mem_of_lookup _ _ _ hc)
  simp only at hr
  rw [countOf_eq, hc]
  exact ⟨wrapInt_of_range c (by omega) hr.2, hr⟩

theorem Increase_inv (m : ResourceManager) (s : Stream) (h : RegistryInv m)
    (hno : m.countOf s ≠ INT_MAX) : RegistryInv (m.Increase s).mgr := by
  unfold Increase
  by_cases hr : m.ref_count_.count s = 1
  · simp only [hr, if_true]
    obtain ⟨c, hc⟩ := UMap.lookup_isSome_of_count _ _ hr
    obtain ⟨hcnt, hc1, hc2⟩ := countOf_of_inv m s c h hc
    obtain ⟨h1, h2, h3⟩ := h
    refine ⟨?_, ?_, ?_⟩
    · simp only [UMap.keys_update_of_count _ _ _ _ hr]; exact h1
    · simp only [UMap.keys_update_of_count _ _ _ _ hr]; exact h2
    · intro p hp
      rcases UMap.mem_update_of_count _ _ _ _ _ hr hp with hp | ⟨-, v, hv, hm⟩
      · exact h3 p hp
      · have hlk := UMap.lookup_of_mem_nodup _ _ _ h2 hm
        rw [hc] at hlk
        have hcv : c = v := Option.some.inj hlk
        subst hcv
        have hne : c ≠ 2147483647 := by
          intro e; apply hno; rw [hcnt, e]; rfl
        rw [hv, wrapInt_of_range (c + 1) (by omega) (by omega)]
        omega
  · simp only [hr, if_false]; exact h

theorem Decrease_inv (ok : Bool) (m : ResourceManager) (s : Stream) (h : RegistryInv m) :
    RegistryInv (m.Decrease ok s).mgr := by
  by_cases hr : m.ref_count_.count s = 1
  · obtain ⟨c, hc⟩ := UMap.lookup_isSome_of_count _ _ hr
    obtain ⟨-, hc1, hc2⟩ := countOf_of_inv m s c h hc
    have hw : wrapInt (c - 1) = c - 1 := wrapInt_of_range _ (by omega) (by omega)
    obtain ⟨h1, h2, h3⟩ := h
    by_cases hz : wrapInt (c - 1) = 0
    · rw [Decrease_last ok m s c hr hc hz]
      refine ⟨?_, ?_, ?_⟩
      · simp only [UMap.keys_erase, UMap.keys_update_of_count _ _ _ _ hr, h1]
      · apply UMap.nodup_keys_erase
        rw [UMap.keys_update_of_count _ _ _ _ hr]; exact h2
      · intro p hp
        obtain ⟨hp1, hp2⟩ := UMap.mem_erase _ _ _ hp
        rcases UMap.mem_update_of_count _ _ _ _ _ hr hp1 with hp | ⟨hk, -⟩
        · exact h3 p hp
        · exact absurd hk hp2
    · rw [Decrease_more ok m s c hr hc hz]
      refine ⟨?_, ?_, ?_⟩
      · simp only [UMap.keys_update_of_count _ _ _ _ hr]; exact h1
      · simp only [UMap.keys_update_of_count _ _ _ _ hr]; exact h2
      · intro p hp
        rcases UMap.mem_update_of_count _ _ _ _ _ hr hp with hp | ⟨-, v, hv, hm⟩
        · exact h3 p hp
        · have hlk := UMap.lookup_of_mem_nodup _ _ _ h2 hm
          rw [hc] at hlk
          have hcv : c = v := Option.some.inj hlk
          subst hcv
          rw [hv, hw]
          rw [hw] at hz
          omega
  · rw [Decrease_unknown ok m s hr]; exact h

theorem DestroyGPUResource_inv (ok : Bool) (m : ResourceManager) (s : Stream)
    (h : RegistryInv m) : RegistryInv (m.DestroyGPUResource ok s).mgr := by
  unfold DestroyGPUResource
  by_cases hg : m.gpu_resources_.count s = 1
  · simp only [hg, if_true]; exact Decrease_inv ok m s h
  · simp only [hg, if_false]; exact h

theorem InitGPUResource_inv (cfg : Platform) (d : Driver) (m : ResourceManager) (place : Place)
    (stream : Stream) (h : RegistryInv m) (hno : m.countOf stream ≠ INT_MAX) :
    RegistryInv (m.InitGPUResource cfg d place stream).mgr := by
  by_cases hg : m.gpu_resources_.count stream = 0
  · cases hr : (GPUContextResource.new cfg d place stream).res with
    | error e => rw [InitGPUResource_new_error cfg d m place stream e hg hr]; exact h
    | ok b =>
      rw [InitGPUResource_new_mgr cfg d m place stream b hg hr]
      obtain ⟨h1, h2, h3⟩ := h
      have hval : ∀ p ∈ m.ref_count_.update b.stream_ (fun _ => 1) 0,
          (1 : Int) ≤ p.2 ∧ p.2 ≤ 2147483647 := by
        intro p hp
        rcases UMap.mem_update _ _ _ _ _ hp with hp | ⟨-, v, hv, -⟩
        · exact h3 p hp
        · rw [hv]; exact ⟨le_refl _, by norm_num⟩
      by_cases hb : m.gpu_resources_.count b.stream_ = 0
      · have hb2 : m.ref_count_.count b.stream_ = 0 := by
          rw [UMap.count_congr_keys _ _ h1]; exact hb
        refine ⟨?_, ?_, hval⟩
        · simp only [UMap.keys_update_of_not _ _ _ _ hb2, UMap.keys_emplace_of_not _ _ _ hb, h1]
        · simp only [UMap.keys_update_of_not _ _ _ _ hb2]
          exact UMap.nodup_keys_append _ _ h2 hb2
      · have hb1 : m.gpu_resources_.count b.stream_ = 1 := by
          have := UMap.count_le_one m.gpu_resources_ b.stream_
          omega
        have hb2 : m.ref_count_.count b.stream_ = 1 := by
          rw [UMap.count_congr_keys _ _ h1]; exact hb1
        refine ⟨?_, ?_, hval⟩
        · simp only [UMap.keys_update_of_count _ _ _ _ hb2, UMap.emplace_of_count _ _ _ hb1, h1]
        · simp only [UMap.keys_update_of_count _ _ _ _ hb2]; exact h2
  · have hmgr : (m.InitGPUResource cfg d place stream).mgr = (m.Increase stream).mgr := by
      simp [InitGPUResource, hg]
    rw [hmgr]; exact Increase_inv m stream h hno

theorem Decrease_removes (ok : Bool) (m : ResourceManager) (s k : Stream) (hinv : RegistryInv m)
    (hk : m.gpu_resources_.count k = 1) :
    (m.Decrease ok s).mgr.gpu_resources_.count k = 0 ↔ (s = k ∧ m.countOf k = 1) := by
  by_cases hr : m.ref_count_.count s = 1
  · obtain ⟨c, hc⟩ := UMap.lookup_isSome_of_count _ _ hr
    obtain ⟨hcnt, hc1, hc2⟩ := countOf_of_inv m s c hinv hc
    have hw : wrapInt (c - 1) = c - 1 := wrapInt_of_range _ (by omega) (by omega)
    by_cases hz : wrapInt (c - 1) = 0
    · rw [Decrease_last ok m s c hr hc hz]
      have hc1 : c = 1 := by rw [hw] at hz; omega
      by_cases hsk : s = k
      · subst hsk
        simp [UMap.count_erase_self, hcnt, hc1]
      · have : k ≠ s := fun e => hsk e.symm
        simp [UMap.count_erase_ne _ _ _ this, hk, hsk]
    · rw [Decrease_more ok m s c hr hc hz]
      have hc1 : c ≠ 1 := by rw [hw] at hz; omega
      by_cases hsk : s = k
      · subst hsk
        simp [hk, hcnt, hc1]
      · simp [hk, hsk]
  · rw [Decrease_unknown ok m s hr]
    have hks : ¬ s = k := by
      intro e; subst e
      rw [UMap.count_congr_keys _ _ hinv.1] at hr
      exact hr hk
    simp [hk, hks]

theorem DestroyGPUResource_removes (ok : Bool) (m : ResourceManager) (s k : Stream)
    (hinv : RegistryInv m) (hk : m.gpu_resources_.count k = 1) :
    (m.DestroyGPUResource ok s).mgr.gpu_resources_.count k = 0 ↔ (s = k ∧ m.countOf k = 1) := by
  by_cases hg : m.gpu_resources_.count s = 1
  · have hm : (m.DestroyGPUResource ok s).mgr = (m.Decrease ok s).mgr := by
      simp [DestroyGPUResource, hg]
    rw [hm]; exact Decrease_removes ok m s k hinv hk
  · have hm : (m.DestroyGPUResource ok s).mgr = m := by simp [DestroyGPUResource, hg]
    rw [hm]
    have hks : ¬ s = k := by
      intro e; subst e; exact hg hk
    simp [hk, hks]

theorem Increase_keeps (m : ResourceManager) (s k : Stream)
    (hk : m.gpu_resources_.count k = 1) : (m.Increase s).mgr.gpu_resources_.count k = 1 := by
  unfold Increase
  by_cases hr : m.ref_count_.count s = 1 <;> simp [hr, hk]

theorem InitGPUResource_keeps (cfg : Platform) (d : Driver) (m : ResourceManager) (place : Place)
    (stream k : Stream) (hk : m.gpu_resources_.count k = 1) :
    (m.InitGPUResource cfg d place stream).mgr.gpu_resources_.count k = 1 := by
  by_cases hg : m.gpu_resources_.count stream = 0
  · cases hr : (GPUContextResource.new cfg d place stream).res with
    | error e => rw [InitGPUResource_new_error cfg d m place stream e hg hr]; exact hk
    | ok b =>
      rw [InitGPUResource_new_mgr cfg d m place stream b hg hr]
      by_cases hb : k = b.stream_
      · subst hb; exact UMap.count_emplace_self _ _ _
      · simp only [UMap.count_emplace_ne _ _ _ _ hb]; exact hk
  · have hmgr : (m.InitGPUResource cfg d place stream).mgr = (m.Increase stream).mgr := by
      simp [InitGPUResource, hg]
    rw [hmgr]; exact Increase_keeps m stream k hk

end ResourceManager

theorem Op.run_inv (cfg : Platform) (m : ResourceManager) (op : Op) (h : RegistryInv m)
    (hno : ¬ op.overflows m) : RegistryInv (op.run cfg m).mgr := by
  cases op with
  | Init d place stream =>
    exact ResourceManager.InitGPUResource_inv cfg d m place stream h hno
  | Destroy ok stream => exact ResourceManager.DestroyGPUResource_inv ok m stream h
  | Increase stream => exact ResourceManager.Increase_inv m stream h hno
  | Decrease ok stream => exact ResourceManager.Decrease_inv ok m stream h

theorem ReachableInInt.inv {cfg : Platform} {m : ResourceManager} (h : ReachableInInt cfg m) :
    RegistryInv m := by
  induction h with
  | empty => exact ⟨rfl, List.nodup_nil, by simp [ResourceManager.empty]⟩
  | step m op _ hno ih => exact Op.run_inv cfg m op ih hno

theorem Reachable.runAll {cfg : Platform} (ops : List Op) :
    ∀ m : ResourceManager, Reachable cfg m → Reachable cfg (runAll cfg m ops).1 := by
  induction ops with
  | nil => intro m h; exact h
  | cons op ops ih =>
    intro m h
    simp only [paddle.runAll]
    exact ih _ (Reachable.step m op h)

theorem runAll_cons_fst (cfg : Platform) (m : ResourceManager) (op : Op) (ops : List Op) :
    (runAll cfg m (op :: ops)).1 = (runAll cfg (op.run cfg m).mgr ops).1 := rfl

theorem runAll_cons_snd (cfg : Platform) (m : ResourceManager) (op : Op) (ops : List Op) :
    (runAll cfg m (op :: ops)).2 = (op.run cfg m).trace ++ (runAll cfg (op.run cfg m).mgr ops).2 :=
  rfl

/-- A run of `n` acquires of a stream `s` that is the only registered one: the
stored count goes from `wrapInt c` to `wrapInt (c + n)`. -/
theorem runAll_replicate_Init (cfg : Platform) (d : Driver) (place : Place) (s : Stream)
    (b : GPUContextResource) (n : Nat) :
    ∀ c : Int,
      (runAll cfg { ref_count_ := [(s, wrapInt c)], gpu_resources_ := [(s, b)] }
        (List.replicate n (Op.Init d place s))).1
        = { ref_count_ := [(s, wrapInt (c + n))], gpu_resources_ := [(s, b)] } := by
  induction n with
  | zero => intro c; simp [paddle.runAll]
  | succ n ih =>
    intro c
    have hreg : ResourceManager.Registered
        { ref_count_ := [(s, wrapInt c)], gpu_resources_ := [(s, b)] } s := by
      simp [ResourceManager.Registered, UMap.count]
    rw [List.replicate_succ]
    simp only [paddle.runAll, Op.run, ResourceManager.InitGPUResource_reuse cfg d _ place s hreg]
    simp only [UMap.update, if_true, wrapInt_wrapInt_add]
    rw [ih (c + 1)]
    have : c + 1 + (n : Int) = c + ((n + 1 : Nat) : Int) := by push_cast; ring
    rw [this]

theorem countP_isConstructOf_map_Ext (s : Stream) (cs : List Call) :
    (cs.map Ev.Ext).countP (Ev.isConstructOf s) = 0 := by
  rw [List.countP_eq_zero]
  intro e he
  obtain ⟨c, -, rfl⟩ := List.mem_map.1 he
  simp [Ev.isConstructOf]

theorem countP_isDestructOf_map_Ext (s : Stream) (cs : List Call) :
    (cs.map Ev.Ext).countP (Ev.isDestructOf s) = 0 := by
  rw [List.countP_eq_zero]
  intro e he
  obtain ⟨c, -, rfl⟩ := List.mem_map.1 he
  simp [Ev.isDestructOf]

namespace ResourceManager

theorem countP_isDestructOf_destruct (ok : Bool) (s : Stream) (b : GPUContextResource)
    (h : b.stream_ = s) : (destruct ok b).2.countP (Ev.isDestructOf s) = 1 := by
  rw [destruct_trace, List.countP_cons, countP_isDestructOf_map_Ext]
  simp [Ev.isDestructOf, h]

theorem countP_isConstructOf_destruct (ok : Bool) (s : Stream) (b : GPUContextResource) :
    (destruct ok b).2.countP (Ev.isConstructOf s) = 0 := by
  rw [destruct_trace, List.countP_cons, countP_isConstructOf_map_Ext]
  simp [Ev.isConstructOf]

theorem Holds.countOf {m : ResourceManager} {s : Stream} {c : Int} (h : Holds m s c) :
    m.countOf s = c := by
  rcases h with ⟨h0, hun⟩ | ⟨h1, h2, -, hl, -⟩
  · rw [countOf_eq, (UMap.lookup_eq_none_iff _ _).2 hun.2, h0]; rfl
  · rw [countOf_eq, hl]
    exact wrapInt_of_range c (by omega) h2

end ResourceManager

theorem releasesWhileRegistered_of_no_release (cfg : Platform) (s : Stream) (ops : List Op) :
    ∀ m : ResourceManager, (∀ op ∈ ops, op.isRelease s = false) →
      releasesWhileRegistered cfg s m ops := by
  induction ops with
  | nil => intro m _; trivial
  | cons op ops ih =>
    intro m h
    refine ⟨?_, ih _ (fun o ho => h o (by simp [ho]))⟩
    intro hr
    rw [h op (by simp)] at hr
    cases hr

theorem manyAcquires_state :
    (runAll (.cuda 11000) ResourceManager.empty manyAcquires).1
      = { ref_count_ := [(5, -2147483648)], gpu_resources_ := [(5, bundle5)] } := by
  have h1 : manyAcquires = acquire5 :: List.replicate 2147483647 acquire5 :=
    List.replicate_succ acquire5 2147483647
  have h2 : (acquire5.run (.cuda 11000) ResourceManager.empty).mgr
      = { ref_count_ := [(5, wrapInt 1)], gpu_resources_ := [(5, bundle5)] } := by decide
  rw [h1, runAll_cons_fst, h2]
  have h3 := runAll_replicate_Init (.cuda 11000) (Driver.sample 7) ⟨0⟩ 5 bundle5 2147483647 1
  unfold acquire5
  rw [h3]
  have : wrapInt (1 + ((2147483647 : Nat) : Int)) = -2147483648 := by decide
  rw [this]

theorem acquire_release_run (cfg : Platform) (s : Stream) (hs : s ≠ nullptr) (ops : List Op) :
    ∀ (m : ResourceManager) (c : Int), ResourceManager.Holds m s c →
      (∀ op ∈ ops, op.acquiresOrReleases cfg s = true) →
      releasesWhileRegistered cfg s m ops →
      countStaysInInt s c ops = true →
      allOk cfg m ops = true ∧
      (runAll cfg m ops).1.countOf s
        = c + (ops.countP (Op.isAcquire s) : Int) - (ops.countP (Op.isRelease s) : Int) ∧
      (runAll cfg m ops).2.countP (Ev.isConstructOf s)
        = transitions cfg s (fun a b => decide (a = 0 ∧ b = 1)) m ops ∧
      (runAll cfg m ops).2.countP (Ev.isDestructOf s)
        = transitions cfg s (fun a b => decide (a = 1 ∧ b = 0)) m ops := by
  induction ops with
  | nil =>
    intro m c hm _ _ _
    refine ⟨rfl, ?_, rfl, rfl⟩
    simp [runAll, hm.countOf]
  | cons op ops ih =>
    intro m c hm hops hrel hint
    have hop := hops op (by simp)
    have hops' : ∀ o ∈ ops, o.acquiresOrReleases cfg s = true :=
      fun o ho => hops o (by simp [ho])
    obtain ⟨hrel1, hrel2⟩ := hrel
    simp only [countStaysInInt, Bool.and_eq_true, decide_eq_true_eq, INT_MAX] at hint
    obtain ⟨hint1, hint2⟩ := hint
    have hcm := hm.countOf
    -- the effect of the first call
    have key : ∃ c', ResourceManager.Holds (op.run cfg m).mgr s c' ∧
        (op.run cfg m).ret.isOk = true ∧
        c' = c + (if op.isAcquire s then 1 else 0) - (if op.isRelease s then 1 else 0) ∧
        (op.run cfg m).trace.countP (Ev.isConstructOf s)
          = (if c = 0 ∧ c' = 1 then 1 else 0) ∧
        (op.run cfg m).trace.countP (Ev.isDestructOf s)
          = (if c = 1 ∧ c' = 0 then 1 else 0) := by
      cases op with
      | Increase t => simp [Op.acquiresOrReleases] at hop
      | Decrease ok t => simp [Op.acquiresOrReleases] at hop
      | Init d place t =>
        simp only [Op.acquiresOrReleases, Bool.and_eq_true, decide_eq_true_eq] at hop
        obtain ⟨ht, hnew⟩ := hop
        subst ht
        simp only [Op.isAcquire, Op.isRelease, decide_True, if_true, Bool.false_eq_true,
          if_false, sub_zero] at hint1
        rcases hm with ⟨h0, hun⟩ | ⟨h1, hmax, hreg, hl, b0, hb0, hbs0, hbo0⟩
        · obtain ⟨b, hr⟩ := GPUContextResource.new_of_succeeds cfg d place t hnew
          obtain ⟨-, hown, hst, -, -, -, -, -⟩ := GPUContextResource.new_ok hr
          have hbs : b.stream_ = t := hst hs
          have hbo : b.owned_stream_ = false := by simp [hown, hs]
          have hrun := ResourceManager.InitGPUResource_new_fresh cfg d m place t b hun.1 hr
            (hbs ▸ hun.1)
          rw [hbs] at hrun
          refine ⟨1, ?_, ?_, ?_, ?_, ?_⟩
          · refine Or.inr ⟨le_refl _, by norm_num, ?_, ?_, b, ?_, hbs, hbo⟩
            · simp only [Op.run, hrun]
              exact ⟨UMap.count_emplace_self _ _ _, UMap.count_update_self _ _ _ _⟩
            · simp only [Op.run, hrun]
              rw [UMap.lookup_update_self]
            · simp only [Op.run, hrun]
              exact UMap.lookup_emplace_of_not _ _ _ hun.1
          · simp only [Op.run, hrun]; rfl
          · simp [Op.isAcquire, Op.isRelease, h0]
          · simp only [Op.run, hrun]
            simp [List.countP_cons, List.countP_append, countP_isConstructOf_map_Ext,
              Ev.isConstructOf, h0]
          · simp only [Op.run, hrun]
            simp [List.countP_cons, List.countP_append, countP_isDestructOf_map_Ext,
              Ev.isDestructOf, h0]
        · have hrun := ResourceManager.InitGPUResource_reuse cfg d m place t hreg
          have hw : wrapInt (c + 1) = c + 1 := wrapInt_of_range _ (by omega) (by omega)
          refine ⟨c + 1, ?_, ?_, ?_, ?_, ?_⟩
          · refine Or.inr ⟨by omega, by omega, ?_, ?_, b0, ?_, hbs0, hbo0⟩
            · simp only [Op.run, hrun]
              exact ⟨hreg.1, UMap.count_update_self _ _ _ _⟩
            · simp only [Op.run, hrun]
              rw [UMap.lookup_update_self, hl]
              simp only [Option.getD_some, hw]
            · simp only [Op.run, hrun]; exact hb0
          · simp only [Op.run, hrun]; rfl
          · simp [Op.isAcquire, Op.isRelease]
          · have : ¬ (c = 0 ∧ c + 1 = 1) := by omega
            rw [if_neg this]
            simp only [Op.run, hrun]
            simp [List.countP_cons, Ev.isConstructOf]
          · have : ¬ (c = 1 ∧ c + 1 = 0) := by omega
            rw [if_neg this]
            simp only [Op.run, hrun]
            simp [List.countP_cons, Ev.isDestructOf]
      | Destroy ok t =>
        simp only [Op.acquiresOrReleases, decide_eq_true_eq] at hop
        subst hop
        have hreg := hrel1 (by simp [Op.isRelease])
        rcases hm with ⟨h0, hun⟩ | ⟨h1, hmax, -, hl, b0, hb0, hbs0, hbo0⟩
        · have := hun.1; rw [hreg.1] at this; exact absurd this (by decide)
        · have hw : wrapInt (c - 1) = c - 1 := wrapInt_of_range _ (by omega) (by omega)
          by_cases hc1 : c = 1
          · subst hc1
            have hget : (m.GetGPUResource t).ret = .ok b0 := by
              rw [ResourceManager.GetGPUResource_ret, hb0]
            have hcnt : (m.RefCount t).ret = .ok 1 := by
              rw [ResourceManager.RefCount_ret, hcm]
            have hrun := ResourceManager.DestroyGPUResource_last ok m t b0 hget hcnt
            refine ⟨0, ?_, ?_, ?_, ?_, ?_⟩
            · refine Or.inl ⟨rfl, ?_⟩
              simp only [Op.run, hrun]
              exact ResourceManager.DestroyGPUResource_last_unregistered m t
            · simp only [Op.run, hrun, ResourceManager.destruct_ret_borrowed ok b0 hbo0]; rfl
            · simp [Op.isAcquire, Op.isRelease]
            · simp only [Op.run, hrun]
              simp [List.countP_cons, List.countP_append,
                ResourceManager.countP_isConstructOf_destruct, Ev.isConstructOf]
            · simp only [Op.run, hrun]
              simp [List.countP_cons, List.countP_append,
                ResourceManager.countP_isDestructOf_destruct ok t b0 hbs0, Ev.isDestructOf]
          · have hz : wrapInt (c - 1) ≠ 0 := by rw [hw]; omega
            have hrun := ResourceManager.DestroyGPUResource_more ok m t c hreg.1 hreg.2 hl hz
            refine ⟨c - 1, ?_, ?_, ?_, ?_, ?_⟩
            · refine Or.inr ⟨by omega, by omega, ?_, ?_, b0, ?_, hbs0, hbo0⟩
              · simp only [Op.run, hrun]
                exact ⟨hreg.1, UMap.count_update_self _ _ _ _⟩
              · simp only [Op.run, hrun]
                rw [UMap.lookup_update_self, hl]
                simp only [Option.getD_some, hw]
              · simp only [Op.run, hrun]; exact hb0
            · simp only [Op.run, hrun]; rfl
            · simp [Op.isAcquire, Op.isRelease]
            · have : ¬ (c = 0 ∧ c - 1 = 1) := by omega
              rw [if_neg this]
              simp only [Op.run, hrun]
              simp [List.countP_cons, Ev.isConstructOf]
            · have : ¬ (c = 1 ∧ c - 1 = 0) := by omega
              rw [if_neg this]
              simp only [Op.run, hrun]
              simp [List.countP_cons, Ev.isDestructOf]
    obtain ⟨c', hm', hok, hc', hcon, hdes⟩ := key
    rw [← hc'] at hint2
    obtain ⟨i1, i2, i3, i4⟩ := ih (op.run cfg m).mgr c' hm' hops' hrel2 hint2
    have hcm' := hm'.countOf
    refine ⟨?_, ?_, ?_, ?_⟩
    · simp only [allOk, hok, i1, Bool.and_self]
    · simp only [runAll, i2, hc', List.countP_cons]
      by_cases ha : op.isAcquire s = true <;> by_cases hr : op.isRelease s = true <;>
        simp [ha, hr] <;> omega
    · simp only [runAll, List.countP_append, hcon, i3, transitions, hcm, hcm']
      simp
    · simp only [runAll, List.countP_append, hdes, i4, transitions, hcm, hcm']
      simp

/-! ## The claims -/

/-- C1, as stated, fails in two ways.  An acquire whose construction fails
leaves the stream unregistered: after one `InitGPUResource(place, 5)` with a
failing sparse-handle init, `RefCount(5)` is 0 and not 1.  And the count is an
`int`: after 2^31 acquires of stream 5 and no release, `RefCount(5)` is
-2147483648 and not 2147483648. -/
theorem refcount_not_acquires_minus_releases :
    ((5 : Stream) ≠ nullptr ∧ ResourceManager.empty.Unregistered 5) ∧
    (releasesWhileRegistered (.cuda 11000) 5 ResourceManager.empty
        [Op.Init Driver.failingSparse ⟨0⟩ 5] ∧
      ((runAll (.cuda 11000) ResourceManager.empty
        [Op.Init Driver.failingSparse ⟨0⟩ 5]).1.RefCount 5).ret = .ok 0 ∧
      (([Op.Init Driver.failingSparse ⟨0⟩ 5].countP (Op.isAcquire 5) : Int)
        - ([Op.Init Driver.failingSparse ⟨0⟩ 5].countP (Op.isRelease 5) : Int)) = 1) ∧
    (releasesWhileRegistered (.cuda 11000) 5 ResourceManager.empty manyAcquires ∧
      manyAcquires.all (Op.acquiresOrReleases (.cuda 11000) 5) = true ∧
      ((runAll (.cuda 11000) ResourceManager.empty manyAcquires).1.RefCount 5).ret
        = .ok (-2147483648) ∧
      ((manyAcquires.countP (Op.isAcquire 5) : Int)
        - (manyAcquires.countP (Op.isRelease 5) : Int)) = 2147483648) := by
  refine ⟨⟨by decide, by decide⟩, ⟨by decide, by decide, by decide⟩, ?_, ?_, ?_, ?_⟩
  · apply releasesWhileRegistered_of_no_release
    intro op hop
    rw [(List.mem_replicate.1 hop).2]
    rfl
  · rw [List.all_eq_true]
    intro op hop
    rw [(List.mem_replicate.1 hop).2]
    decide
  · rw [manyAcquires_state]
    decide
  · unfold manyAcquires
    rw [List.countP_replicate, List.countP_replicate]
    have h1 : Op.isAcquire 5 acquire5 = true := by decide
    have h2 : Op.isRelease 5 acquire5 = false := by decide
    rw [h1, h2]
    simp

/-- C1 (amended): for a non-null stream `s` that is not registered, and any
sequence of acquires `InitGPUResource(place, s)`, made with drivers under which
no step of a construction fails, and releases `DestroyGPUResource(s)` in which
every release happens while `s` is registered and the number of acquires minus
the number of releases never exceeds `INT_MAX`, every call returns,
`RefCount(s)` at the end is the number of acquires minus the number of
releases, a bundle for `s` is constructed once for each call over which the
count goes from 0 to 1, and a bundle of `s` is destructed once for each call
over which it goes from 1 to 0. -/
theorem refcount_is_acquires_minus_releases (cfg : Platform) (m : ResourceManager) (s : Stream)
    (ops : List Op) (hs : s ≠ nullptr) (hun : m.Unregistered s)
    (hops : ∀ op ∈ ops, op.acquiresOrReleases cfg s = true)
    (hrel : releasesWhileRegistered cfg s m ops)
    (hint : countStaysInInt s 0 ops = true) :
    allOk cfg m ops = true ∧
    ((runAll cfg m ops).1.RefCount s).ret
      = .ok ((ops.countP (Op.isAcquire s) : Int) - (ops.countP (Op.isRelease s) : Int)) ∧
    (runAll cfg m ops).2.countP (Ev.isConstructOf s)
      = transitions cfg s (fun a b => decide (a = 0 ∧ b = 1)) m ops ∧
    (runAll cfg m ops).2.countP (Ev.isDestructOf s)
      = transitions cfg s (fun a b => decide (a = 1 ∧ b = 0)) m ops := by
  obtain ⟨h1, h2, h3, h4⟩ :=
    acquire_release_run cfg s hs ops m 0 (Or.inl ⟨rfl, hun⟩) hops hrel hint
  refine ⟨h1, ?_, h3, h4⟩
  rw [ResourceManager.RefCount_ret, h2, zero_add]

/-- The amended C1 at the empty manager and the sample sequence on stream 5:
three acquires and two releases leave the count at 1, with two constructions
and one destruction. -/
theorem refcount_is_acquires_minus_releases_witness :
    ((runAll (.cuda 11000) ResourceManager.empty sampleOps).1.RefCount 5).ret = .ok 1 ∧
    (runAll (.cuda 11000) ResourceManager.empty sampleOps).2.countP (Ev.isConstructOf 5) = 2 ∧
    (runAll (.cuda 11000) ResourceManager.empty sampleOps).2.countP (Ev.isDestructOf 5) = 1 := by
  have h := refcount_is_acquires_minus_releases (.cuda 11000) ResourceManager.empty 5 sampleOps
    (by decide) (by decide) (by decide) (by decide) (by decide)
  refine ⟨?_, ?_, ?_⟩
  · rw [h.2.1]; decide
  · rw [h.2.2.1]; decide
  · rw [h.2.2.2]; decide

/-- C2, as stated, fails: the state after 2^31 calls of `InitGPUResource(place,
5)` on the empty manager is reachable, and in it the stored count of stream 5,
which `RefCount(5)` returns, is -2147483648, below 1. -/
theorem reachable_count_below_one :
    Reachable (.cuda 11000) (runAll (.cuda 11000) ResourceManager.empty manyAcquires).1 ∧
    (runAll (.cuda 11000) ResourceManager.empty manyAcquires).1.ref_count_
      = [(5, -2147483648)] ∧
    (runAll (.cuda 11000) ResourceManager.empty manyAcquires).1.Registered 5 ∧
    ((runAll (.cuda 11000) ResourceManager.empty manyAcquires).1.RefCount 5).ret
      = .ok (-2147483648) := by
  refine ⟨Reachable.runAll manyAcquires _ Reachable.empty, ?_, ?_, ?_⟩
  · rw [manyAcquires_state]
  · rw [manyAcquires_state]; decide
  · rw [manyAcquires_state]; decide

/-- C2 (amended): in every state reachable from the empty manager by calls of
`InitGPUResource`, `DestroyGPUResource`, `Increase` and `Decrease`, returning or
throwing, none of which increments a count that is already `INT_MAX`,
`ref_count_` and `gpu_resources_` have the same keys, no stream is a key twice,
and every stored count is at least 1; and a call removes a registered stream
`k` exactly when it is a `DestroyGPUResource(k)` or `Decrease(k)` made while
`RefCount(k)` is 1, that is, when it brings the count of `k` to 0. -/
theorem registry_invariant (cfg : Platform) (m : ResourceManager) (h : ReachableInInt cfg m) :
    (∀ k, k ∈ m.ref_count_.keys ↔ k ∈ m.gpu_resources_.keys) ∧
    m.ref_count_.keys.Nodup ∧ m.gpu_resources_.keys.Nodup ∧
    (∀ p ∈ m.ref_count_, (1 : Int) ≤ p.2) ∧
    (∀ k, k ∈ m.gpu_resources_.keys → ∃ c, (m.RefCount k).ret = .ok c ∧ 1 ≤ c) ∧
    ∀ (op : Op) (k : Stream), k ∈ m.gpu_resources_.keys →
      ((k ∉ (op.run cfg m).mgr.gpu_resources_.keys ∧ k ∉ (op.run cfg m).mgr.ref_count_.keys) ↔
        ((∃ ok, op = .Destroy ok k ∨ op = .Decrease ok k) ∧ (m.RefCount k).ret = .ok 1)) := by
  have hinv := h.inv
  obtain ⟨h1, h2, h3⟩ := hinv
  refine ⟨fun k => by rw [h1], h2, h1 ▸ h2, fun p hp => (h3 p hp).1, ?_, ?_⟩
  · intro k hk
    have hc : m.ref_count_.count k = 1 := by
      rw [UMap.count_eq_one_iff, h1]; exact hk
    obtain ⟨c, hl⟩ := UMap.lookup_isSome_of_count _ _ hc
    obtain ⟨hcnt, hc1, -⟩ := ResourceManager.countOf_of_inv m k c h.inv hl
    exact ⟨c, by rw [ResourceManager.RefCount_ret, hcnt], hc1⟩
  · intro op k hk
    have hkc : m.gpu_resources_.count k = 1 := (UMap.count_eq_one_iff _ _).2 hk
    have hkr : m.ref_count_.count k = 1 := by
      rw [UMap.count_congr_keys _ _ h1]; exact hkc
    have hret : ((m.RefCount k).ret = (Res.ok 1 : Res Int)) ↔ m.countOf k = 1 := by
      rw [ResourceManager.RefCount_ret]
      constructor
      · intro e; exact Res.ok.inj e
      · intro e; rw [e]
    rw [hret, ← UMap.count_eq_zero_iff, ← UMap.count_eq_zero_iff]
    cases op with
    | Init d place stream =>
      have := ResourceManager.InitGPUResource_keeps cfg d m place stream k hkc
      simp only [Op.run]
      constructor
      · rintro ⟨h0, -⟩; rw [h0] at this; exact absurd this (by decide)
      · rintro ⟨⟨ok, hop | hop⟩, -⟩ <;> cases hop
    | Increase stream =>
      have := ResourceManager.Increase_keeps m stream k hkc
      simp only [Op.run]
      constructor
      · rintro ⟨h0, -⟩; rw [h0] at this; exact absurd this (by decide)
      · rintro ⟨⟨ok, hop | hop⟩, -⟩ <;> cases hop
    | Destroy ok stream =>
      simp only [Op.run]
      have hinv' := ResourceManager.DestroyGPUResource_inv ok m stream h.inv
      rw [UMap.count_congr_keys _ _ hinv'.1, and_self,
        ResourceManager.DestroyGPUResource_removes ok m stream k h.inv hkc]
      constructor
      · rintro ⟨e, hc⟩; subst e; exact ⟨⟨ok, Or.inl rfl⟩, hc⟩
      · rintro ⟨⟨ok', hop | hop⟩, hc⟩
        · cases hop; exact ⟨rfl, hc⟩
        · cases hop
    | Decrease ok stream =>
      simp only [Op.run]
      have hinv' := ResourceManager.Decrease_inv ok m stream h.inv
      rw [UMap.count_congr_keys _ _ hinv'.1, and_self,
        ResourceManager.Decrease_removes ok m stream k h.inv hkc]
      constructor
      · rintro ⟨e, hc⟩; subst e; exact ⟨⟨ok, Or.inr rfl⟩, hc⟩
      · rintro ⟨⟨ok', hop | hop⟩, hc⟩
        · cases hop
        · cases hop; exact ⟨rfl, hc⟩

/-- The amended C2 at the state reached by borrowing stream 5 on the empty
manager. -/
theorem registry_invariant_witness :
    ReachableInInt (.cuda 11000) borrowed5 ∧ borrowed5.ref_count_.keys.Nodup ∧
    (5 ∉ ((Op.Destroy true 5).run (.cuda 11000) borrowed5).mgr.gpu_resources_.keys ∧
      5 ∉ ((Op.Destroy true 5).run (.cuda 11000) borrowed5).mgr.ref_count_.keys) :=
  have hr : ReachableInInt (.cuda 11000) borrowed5 :=
    ReachableInInt.step ResourceManager.empty (Op.Init (Driver.sample 7) ⟨0⟩ 5)
      ReachableInInt.empty (by decide)
  ⟨hr, (registry_invariant (.cuda 11000) borrowed5 hr).2.1,
    ((registry_invariant (.cuda 11000) borrowed5 hr).2.2.2.2.2 (Op.Destroy true 5) 5
      (by decide)).2 ⟨⟨true, Or.inl rfl⟩, by decide⟩⟩

namespace ResourceManager

theorem Decrease_registered (ok : Bool) (m : ResourceManager) (s : Stream)
    (hr : m.ref_count_.count s = 1) :
    (m.Decrease ok s).ret = .ok () ∨
      ((m.Decrease ok s).ret = .error .Terminated ∧ ok = false ∧ m.countOf s = 1 ∧
        ∃ b, m.gpu_resources_.lookup s = some b ∧ b.owned_stream_ = true) := by
  obtain ⟨c, hc⟩ := UMap.lookup_isSome_of_count _ _ hr
  by_cases hz : wrapInt (c - 1) = 0
  · rw [Decrease_last ok m s c hr hc hz]
    cases hb : m.gpu_resources_.lookup s with
    | none => exact Or.inl rfl
    | some b =>
      rcases destruct_ret_cases ok b with h1 | ⟨h1, h2, h3⟩
      · exact Or.inl h1
      · refine Or.inr ⟨h1, h2, ?_, b, rfl, h3⟩
        rw [countOf_eq, hc]
        exact (wrapInt_pred_eq_zero c).1 hz
  · rw [Decrease_more ok m s c hr hc hz]
    exact Or.inl rfl

theorem Decrease_true_registered (m : ResourceManager) (s : Stream)
    (hr : m.ref_count_.count s = 1) : (m.Decrease true s).ret = .ok () := by
  rcases Decrease_registered true m s hr with h | ⟨-, h, -⟩
  · exact h
  · cases h

end ResourceManager

/-- C6, as stated, fails in its converse half: stream 7 is registered, with a
bundle that owns it, and `DestroyGPUResource(7)` and `Decrease(7)` fail when the
driver's stream-destroy call fails in the destructor. -/
theorem release_of_registered_stream_can_fail :
    owned7.Registered 7 ∧
    (owned7.RefCount 7).ret = .ok 1 ∧
    (owned7.DestroyGPUResource false 7).ret = .error .Terminated ∧
    (owned7.Decrease false 7).ret = .error .Terminated ∧
    Call.StreamDestroy 7 ∈ extCalls (owned7.DestroyGPUResource false 7).trace := by
  decide

/-- C6 (amended): on a stream that is not registered, `DestroyGPUResource`,
`GetGPUResource`, `Increase` and `Decrease` throw an invalid-argument error and
leave the registry as it was, and `RefCount` returns 0 and leaves it as it was;
on a registered stream `GetGPUResource`, `Increase` and `RefCount` return, and
`DestroyGPUResource` and `Decrease` return unless they bring the count from 1
to 0 for a bundle that owns its stream and the stream-destroy call of the
driver fails. -/
theorem unknown_key_contract (m : ResourceManager) (s : Stream) :
    (m.Unregistered s →
      (∀ ok, (m.DestroyGPUResource ok s).ret = .error .InvalidArgument ∧
        (m.DestroyGPUResource ok s).mgr = m) ∧
      ((m.GetGPUResource s).ret = .error .InvalidArgument ∧ (m.GetGPUResource s).mgr = m) ∧
      ((m.Increase s).ret = .error .InvalidArgument ∧ (m.Increase s).mgr = m) ∧
      (∀ ok, (m.Decrease ok s).ret = .error .InvalidArgument ∧ (m.Decrease ok s).mgr = m) ∧
      ((m.RefCount s).ret = .ok 0 ∧ (m.RefCount s).mgr = m)) ∧
    (m.Registered s →
      (m.GetGPUResource s).ret.isOk = true ∧ (m.Increase s).ret.isOk = true ∧
      (m.RefCount s).ret.isOk = true ∧
      (m.DestroyGPUResource true s).ret = .ok () ∧ (m.Decrease true s).ret = .ok () ∧
      (∀ ok, (m.DestroyGPUResource ok s).ret = .ok () ∨
        ((m.DestroyGPUResource ok s).ret = .error .Terminated ∧ ok = false ∧
          (m.RefCount s).ret = .ok 1 ∧
          ∃ b, (m.GetGPUResource s).ret = .ok b ∧ b.owned_stream_ = true)) ∧
      (∀ ok, (m.Decrease ok s).ret = .ok () ∨
        ((m.Decrease ok s).ret = .error .Terminated ∧ ok = false ∧
          (m.RefCount s).ret = .ok 1 ∧
          ∃ b, (m.GetGPUResource s).ret = .ok b ∧ b.owned_stream_ = true))) := by
  constructor
  · rintro ⟨hg, hr⟩
    refine ⟨?_, ?_, ?_, ?_, ?_⟩
    · intro ok; simp [ResourceManager.DestroyGPUResource, hg]
    · simp [ResourceManager.GetGPUResource, hg]
    · simp [ResourceManager.Increase, hr]
    · intro ok; simp [ResourceManager.Decrease, hr]
    · simp [ResourceManager.RefCount, hr]
  · rintro ⟨hg, hr⟩
    obtain ⟨b, hb⟩ := UMap.lookup_isSome_of_count _ _ hg
    have hdec : ∀ ok, (m.Decrease ok s).ret = .ok () ∨
        ((m.Decrease ok s).ret = .error .Terminated ∧ ok = false ∧
          (m.RefCount s).ret = .ok 1 ∧
          ∃ b, (m.GetGPUResource s).ret = .ok b ∧ b.owned_stream_ = true) := by
      intro ok
      rcases ResourceManager.Decrease_registered ok m s hr with h | ⟨h1, h2, h3, b', h4, h5⟩
      · exact Or.inl h
      · refine Or.inr ⟨h1, h2, ?_, b', ?_, h5⟩
        · rw [ResourceManager.RefCount_ret, h3]
        · rw [ResourceManager.GetGPUResource_ret, h4]
    have hdes : ∀ ok, (m.DestroyGPUResource ok s).ret = (m.Decrease ok s).ret := by
      intro ok; simp [ResourceManager.DestroyGPUResource, hg]
    refine ⟨?_, ?_, ?_, ?_, ?_, ?_, hdec⟩
    · simp [ResourceManager.GetGPUResource, hg, hb, Res.isOk]
    · simp [ResourceManager.Increase, hr, Res.isOk]
    · rw [ResourceManager.RefCount_ret]; rfl
    · rw [hdes]; exact ResourceManager.Decrease_true_registered m s hr
    · exact ResourceManager.Decrease_true_registered m s hr
    · intro ok; rw [hdes]; exact hdec ok

/-- The amended C6 at concrete managers: stream 9 is unknown to the empty
manager, stream 5 is registered in the sample manager. -/
theorem unknown_key_contract_witness :
    (ResourceManager.empty.Unregistered 9 ∧
      (ResourceManager.empty.DestroyGPUResource true 9).ret = .error .InvalidArgument ∧
      (ResourceManager.empty.RefCount 9).ret = .ok 0) ∧
    (sampleManager.Registered 5 ∧ (sampleManager.DestroyGPUResource true 5).ret = .ok ()) :=
  ⟨⟨by decide, (((unknown_key_contract ResourceManager.empty 9).1 (by decide)).1 true).1,
      ((unknown_key_contract ResourceManager.empty 9).1 (by decide)).2.2.2.2.1⟩,
    ⟨by decide, ((unknown_key_contract sampleManager 5).2 (by decide)).2.2.2.1⟩⟩

/-- C9: `DestroyGPUResource(5)` on a manager where stream 5 is registered reads
`gpu_resources_` and reads and writes `ref_count_` without taking `gpu_mutex_`
at any point, while `InitGPUResource` on the same manager takes the lock before
its first access and releases it after its last. -/
theorem destroy_takes_no_lock :
    (sampleManager.DestroyGPUResource true 5).ret = .ok () ∧
    (sampleManager.DestroyGPUResource true 5).trace
      = [Ev.Access .gpu_resources_, Ev.Access .ref_count_, Ev.Access .ref_count_,
          Ev.Access .ref_count_] ∧
    Ev.LockGpuMutex ∉ (sampleManager.DestroyGPUResource true 5).trace ∧
    (sampleManager.InitGPUResource (.cuda 11000) (Driver.sample 7) ⟨0⟩ 5).trace
      = [Ev.LockGpuMutex, Ev.Access .gpu_resources_, Ev.Access .ref_count_,
          Ev.Access .ref_count_, Ev.UnlockGpuMutex] := by
  decide

/-- C3, as stated, fails at the count `INT_MAX`: stream 5 is registered with
count 2147483647, the state after that many acquires on the empty manager, and
one more `InitGPUResource(place, 5)` returns 5 and leaves `RefCount(5)` at
-2147483648, not at 2147483648. -/
theorem init_registered_wraps_at_int_max :
    (runAll (.cuda 11000) ResourceManager.empty (List.replicate 2147483647 acquire5)).1
      = atIntMax ∧
    atIntMax.Registered 5 ∧
    (atIntMax.RefCount 5).ret = .ok 2147483647 ∧
    (atIntMax.InitGPUResource (.cuda 11000) (Driver.sample 7) ⟨0⟩ 5).ret = .ok 5 ∧
    ((atIntMax.InitGPUResource (.cuda 11000) (Driver.sample 7) ⟨0⟩ 5).mgr.RefCount 5).ret
      = .ok (-2147483648) ∧
    ((atIntMax.InitGPUResource (.cuda 11000) (Driver.sample 7) ⟨0⟩ 5).mgr.RefCount 5).ret
      ≠ .ok (2147483647 + 1) := by
  refine ⟨?_, by decide, by decide, by decide, by decide, by decide⟩
  have h1 : (List.replicate 2147483647 acquire5) = acquire5 :: List.replicate 2147483646 acquire5 :=
    List.replicate_succ acquire5 2147483646
  have h2 : (acquire5.run (.cuda 11000) ResourceManager.empty).mgr
      = { ref_count_ := [(5, wrapInt 1)], gpu_resources_ := [(5, bundle5)] } := by decide
  rw [h1, runAll_cons_fst, h2]
  have h3 := runAll_replicate_Init (.cuda 11000) (Driver.sample 7) ⟨0⟩ 5 bundle5 2147483646 1
  unfold acquire5
  rw [h3]
  unfold atIntMax
  have : wrapInt (1 + ((2147483646 : Nat) : Int)) = 2147483647 := by decide
  rw [this]

/-- C3 (amended): `InitGPUResource(place, s)` on a registered stream `s`, for any
place and any driver, returns `s`, enters no constructor and issues no external
call, leaves `gpu_resources_` as it was (so `GetGPUResource` gives the same
bundle for `s` and for every other stream) and leaves the count of every other
stream as it was; `RefCount(s)` becomes the `int` after `++`, which is the old
count plus one when the old count is below `INT_MAX`. -/
theorem init_registered_reuses (cfg : Platform) (d : Driver) (m : ResourceManager)
    (place : Place) (s : Stream) (h : m.Registered s) :
    (m.InitGPUResource cfg d place s).ret = .ok s ∧
    ((m.InitGPUResource cfg d place s).mgr.RefCount s).ret = .ok (wrapInt (m.countOf s + 1)) ∧
    (m.countOf s < INT_MAX →
      ((m.InitGPUResource cfg d place s).mgr.RefCount s).ret = .ok (m.countOf s + 1)) ∧
    (m.RefCount s).ret = .ok (m.countOf s) ∧
    (m.InitGPUResource cfg d place s).trace =
      [Ev.LockGpuMutex, Ev.Access .gpu_resources_, Ev.Access .ref_count_, Ev.Access .ref_count_,
        Ev.UnlockGpuMutex] ∧
    (∀ p t, Ev.Construct p t ∉ (m.InitGPUResource cfg d place s).trace) ∧
    extCalls (m.InitGPUResource cfg d place s).trace = [] ∧
    (m.InitGPUResource cfg d place s).mgr.gpu_resources_ = m.gpu_resources_ ∧
    (∃ b, (m.GetGPUResource s).ret = .ok b ∧
      ((m.InitGPUResource cfg d place s).mgr.GetGPUResource s).ret = .ok b) ∧
    (∀ s', s' ≠ s →
      ((m.InitGPUResource cfg d place s).mgr.RefCount s').ret = (m.RefCount s').ret ∧
      ((m.InitGPUResource cfg d place s).mgr.GetGPUResource s').ret
        = (m.GetGPUResource s').ret) := by
  have hrun := ResourceManager.InitGPUResource_reuse cfg d m place s h
  obtain ⟨hg, hr⟩ := h
  rw [hrun]
  obtain ⟨b, hb⟩ := UMap.lookup_isSome_of_count _ _ hg
  have hcount : (ResourceManager.RefCount
      { m with ref_count_ := m.ref_count_.update s (fun c => wrapInt (c + 1)) 0 } s).ret
      = .ok (wrapInt (m.countOf s + 1)) := by
    rw [ResourceManager.RefCount_ret]
    simp only [ResourceManager.countOf_eq, UMap.lookup_update_self, Option.getD_some]
    congr 1
    unfold wrapInt; omega
  refine ⟨rfl, hcount, ?_, ResourceManager.RefCount_ret _ _, rfl, ?_, ?_, rfl, ⟨b, ?_, ?_⟩, ?_⟩
  · intro hlt
    rw [hcount]
    have hrange := wrapInt_range ((m.ref_count_.lookup s).getD 0)
    rw [← ResourceManager.countOf_eq] at hrange
    have hlt' : m.countOf s < 2147483647 := hlt
    rw [wrapInt_of_range _ (by omega) (by omega)]
  · intro p t; simp
  · simp [extCalls]
  · rw [ResourceManager.GetGPUResource_ret, hb]
  · rw [ResourceManager.GetGPUResource_ret]; simp [hb]
  · intro s' hs'
    constructor
    · rw [ResourceManager.RefCount_ret, ResourceManager.RefCount_ret]
      simp [ResourceManager.countOf_eq, UMap.lookup_update_ne _ _ _ _ _ hs']
    · rw [ResourceManager.GetGPUResource_ret, ResourceManager.GetGPUResource_ret]

/-- The amended C3 at the sample manager: stream 5, registered with count 2, is
acquired a third time, on another device and with a driver that would create
stream 8. -/
theorem init_registered_reuses_witness :
    sampleManager.Registered 5 ∧ sampleManager.countOf 5 < INT_MAX ∧
    (sampleManager.InitGPUResource (.cuda 11000) (Driver.sample 8) ⟨3⟩ 5).ret = .ok 5 ∧
    ((sampleManager.InitGPUResource (.cuda 11000) (Driver.sample 8) ⟨3⟩ 5).mgr.RefCount 5).ret
      = .ok (sampleManager.countOf 5 + 1) :=
  ⟨by decide, by decide,
    (init_registered_reuses (.cuda 11000) (Driver.sample 8) sampleManager ⟨3⟩ 5 (by decide)).1,
    (init_registered_reuses (.cuda 11000) (Driver.sample 8) sampleManager ⟨3⟩ 5
      (by decide)).2.2.1 (by decide)⟩

namespace ResourceManager

theorem InitGPUResource_new_cases (cfg : Platform) (d : Driver) (m : ResourceManager)
    (place : Place) (stream : Stream) (b : GPUContextResource)
    (h : m.gpu_resources_.count stream = 0)
    (hb : (GPUContextResource.new cfg d place stream).res = .ok b) :
    ((m.InitGPUResource cfg d place stream).ret = .ok b.stream_ ∨
      (m.InitGPUResource cfg d place stream).ret = .error .Terminated) ∧
    ∃ rest, extCalls (m.InitGPUResource cfg d place stream).trace
      = (GPUContextResource.new cfg d place stream).calls ++ rest := by
  by_cases hf : m.gpu_resources_.count b.stream_ = 0
  · rw [InitGPUResource_new_fresh cfg d m place stream b h hb hf]
    refine ⟨Or.inl rfl, [], ?_⟩
    simp [extCalls_append, extCalls_cons_Lock, extCalls_cons_Access, extCalls_cons_Construct,
      extCalls_map_Ext, extCalls_cons_Unlock, extCalls_nil]
  · simp only [ResourceManager.InitGPUResource, h, ne_eq, not_true_eq_false, if_false,
      ResourceManager.InitGPUResourceNew, hb, GPUContextResource.GetStream, hf]
    constructor
    · rcases destruct_ret_cases d.StreamDestroy b with h1 | ⟨h1, -, -⟩
      · left; rw [h1]
      · right; rw [h1]
    · refine ⟨(b.DestroyGPUResource d.StreamDestroy).calls, ?_⟩
      simp [extCalls_append, extCalls_cons_Lock, extCalls_cons_Access, extCalls_cons_Construct,
        extCalls_map_Ext, extCalls_unlockAfter, extCalls_nil, extCalls_destruct]

end ResourceManager

/-- C4: a successful `InitGPUResource(place, s)` for a non-null stream `s` that
is not registered returns `s`, leaves `RefCount(s) = 1`, and registers the
bundle it constructed, whose `GetStream()` is `s` and which does not own the
stream; in any later state where that bundle is still registered for `s` with
count 1, `DestroyGPUResource(s)` returns whatever the driver would answer to a
stream-destroy call, unregisters `s`, destructs the bundle once and issues no
stream-destroy call. -/
theorem init_borrowed_stream (cfg : Platform) (d : Driver) (m : ResourceManager) (place : Place)
    (s : Stream) (hs : s ≠ nullptr) (hun : m.Unregistered s)
    (hok : (m.InitGPUResource cfg d place s).ret.isOk = true) :
    (m.InitGPUResource cfg d place s).ret = .ok s ∧
    ((m.InitGPUResource cfg d place s).mgr.RefCount s).ret = .ok 1 ∧
    ∃ b, (GPUContextResource.new cfg d place s).res = .ok b ∧
      ((m.InitGPUResource cfg d place s).mgr.GetGPUResource s).ret = .ok b ∧
      b.GetStream = s ∧ b.owned_stream_ = false ∧
      ∀ (ok : Bool) (m' : ResourceManager),
        (m'.GetGPUResource s).ret = .ok b → (m'.RefCount s).ret = .ok 1 →
        (m'.DestroyGPUResource ok s).ret = .ok () ∧
        (m'.DestroyGPUResource ok s).mgr.Unregistered s ∧
        ((m'.DestroyGPUResource ok s).mgr.RefCount s).ret = .ok 0 ∧
        (m'.DestroyGPUResource ok s).trace.count (Ev.Destruct b) = 1 ∧
        ∀ t, Call.StreamDestroy t ∉ extCalls (m'.DestroyGPUResource ok s).trace := by
  cases hr : (GPUContextResource.new cfg d place s).res with
  | error e =>
    rw [ResourceManager.InitGPUResource_new_error cfg d m place s e hun.1 hr] at hok
    simp [Res.isOk] at hok
  | ok b =>
    obtain ⟨-, hown, hst, -, -, -, -, -⟩ := GPUContextResource.new_ok hr
    have hbs : b.stream_ = s := hst hs
    have hbo : b.owned_stream_ = false := by simp [hown, hs]
    rw [ResourceManager.InitGPUResource_new_fresh cfg d m place s b hun.1 hr (hbs ▸ hun.1), hbs]
    refine ⟨rfl, ?_, b, rfl, ?_, hbs, hbo, ?_⟩
    · rw [ResourceManager.RefCount_ret]
      simp [ResourceManager.countOf_eq, UMap.lookup_update_self, wrapInt]
    · rw [ResourceManager.GetGPUResource_ret]
      simp [UMap.lookup_emplace_of_not _ _ _ hun.1]
    · intro ok m' hb hc
      rw [ResourceManager.DestroyGPUResource_last ok m' s b hb hc]
      refine ⟨ResourceManager.destruct_ret_borrowed ok b hbo,
        ResourceManager.DestroyGPUResource_last_unregistered m' s,
        ResourceManager.RefCount_of_unregistered _ _
          (ResourceManager.DestroyGPUResource_last_unregistered m' s), ?_, ?_⟩
      · simp only [List.count_append, ResourceManager.Destruct_count_destruct]
        simp [List.count_cons]
      · intro t
        simp only [extCalls_append, ResourceManager.extCalls_destruct]
        simp [extCalls, GPUContextResource.StreamDestroy_not_mem_of_borrowed ok b hbo t]

/-- C4 at the empty manager: stream 5 is borrowed on CUDA 11000, and released
right after. -/
theorem init_borrowed_stream_witness :
    (5 : Stream) ≠ nullptr ∧ ResourceManager.empty.Unregistered 5 ∧
    (ResourceManager.empty.InitGPUResource (.cuda 11000) (Driver.sample 7) ⟨0⟩ 5).ret = .ok 5 ∧
    ((ResourceManager.empty.InitGPUResource (.cuda 11000) (Driver.sample 7) ⟨0⟩ 5).mgr.RefCount
      5).ret = .ok 1 :=
  ⟨by decide, by decide,
    (init_borrowed_stream (.cuda 11000) (Driver.sample 7) ResourceManager.empty ⟨0⟩ 5
      (by decide) (by decide) (by decide)).1,
    (init_borrowed_stream (.cuda 11000) (Driver.sample 7) ResourceManager.empty ⟨0⟩ 5
      (by decide) (by decide) (by decide)).2.1⟩

/-- C5, as stated, fails in two registry states.  With the borrowed stream 5
registered, a null-stream acquire whose driver creates stream 5 again returns 5,
but `emplace` keeps the old bundle: `GetGPUResource(5)` is the borrowed bundle,
not the one this call constructed, and the new bundle is destructed, with its
stream-destroy call, before the call returns.  With the null stream registered,
a null-stream acquire takes the re-use path: no stream is created and the count
becomes 2. -/
theorem init_null_stream_not_always_owned :
    ((borrowed5.InitGPUResource (.cuda 11000) (Driver.sample 5) ⟨0⟩ nullptr).ret = .ok 5 ∧
      ((borrowed5.InitGPUResource (.cuda 11000) (Driver.sample 5) ⟨0⟩ nullptr).mgr.GetGPUResource
        5).ret = (borrowed5.GetGPUResource 5).ret ∧
      (bundleOf (GPUContextResource.new (.cuda 11000) (Driver.sample 5) ⟨0⟩ nullptr)).owned_stream_
        = true ∧
      ((borrowed5.InitGPUResource (.cuda 11000) (Driver.sample 5) ⟨0⟩ nullptr).mgr.GetGPUResource
        5).ret ≠ .ok (bundleOf (GPUContextResource.new (.cuda 11000) (Driver.sample 5) ⟨0⟩ nullptr)) ∧
      Call.StreamDestroy 5 ∈ extCalls
        (borrowed5.InitGPUResource (.cuda 11000) (Driver.sample 5) ⟨0⟩ nullptr).trace) ∧
    ((nullRegistered.InitGPUResource (.cuda 11000) (Driver.sample 7) ⟨0⟩ nullptr).ret
        = .ok nullptr ∧
      initSeq (extCalls
        (nullRegistered.InitGPUResource (.cuda 11000) (Driver.sample 7) ⟨0⟩ nullptr).trace) = [] ∧
      ((nullRegistered.InitGPUResource (.cuda 11000) (Driver.sample 7) ⟨0⟩ nullptr).mgr.RefCount
        nullptr).ret = .ok 2) := by
  decide

/-- C5 (amended): when the null stream is not registered, a successful
`InitGPUResource(place, nullptr)` returns the stream `t` that the driver's
stream-create produced during this call; when `t` is not registered either,
`RefCount(t) = 1` afterwards and `GetGPUResource(t)` is the bundle constructed
by this call, which owns `t`, and a following `DestroyGPUResource(t)` brings the
count to 0, erases the entry and issues the stream-destroy call on `t` exactly
once; it returns when that call succeeds. -/
theorem init_null_stream_owned (cfg : Platform) (d : Driver) (m : ResourceManager)
    (place : Place) (hnull : m.Unregistered nullptr)
    (hok : (m.InitGPUResource cfg d place nullptr).ret.isOk = true) :
    ∃ t, d.InitStream = some t ∧
      SubResource.stream t ∈ initSeq (extCalls (m.InitGPUResource cfg d place nullptr).trace) ∧
      (m.InitGPUResource cfg d place nullptr).ret = .ok t ∧
      (m.Unregistered t →
        ((m.InitGPUResource cfg d place nullptr).mgr.RefCount t).ret = .ok 1 ∧
        ∃ b, (GPUContextResource.new cfg d place nullptr).res = .ok b ∧
          ((m.InitGPUResource cfg d place nullptr).mgr.GetGPUResource t).ret = .ok b ∧
          b.owned_stream_ = true ∧ b.GetStream = t ∧
          ((m.InitGPUResource cfg d place nullptr).mgr.DestroyGPUResource true t).ret = .ok () ∧
          ((m.InitGPUResource cfg d place nullptr).mgr.DestroyGPUResource false t).ret
            = .error .Terminated ∧
          ∀ ok : Bool,
            (((m.InitGPUResource cfg d place nullptr).mgr.DestroyGPUResource ok t).mgr.RefCount
              t).ret = .ok 0 ∧
            ((m.InitGPUResource cfg d place nullptr).mgr.DestroyGPUResource ok
              t).mgr.Unregistered t ∧
            (extCalls ((m.InitGPUResource cfg d place nullptr).mgr.DestroyGPUResource ok
              t).trace).count (Call.StreamDestroy t) = 1) := by
  cases hr : (GPUContextResource.new cfg d place nullptr).res with
  | error e =>
    rw [ResourceManager.InitGPUResource_new_error cfg d m place nullptr e hnull.1 hr] at hok
    simp [Res.isOk] at hok
  | ok b =>
    obtain ⟨-, hown, -, hst, hinit, -, -, -⟩ := GPUContextResource.new_ok hr
    have hbo : b.owned_stream_ = true := by simp [hown]
    obtain ⟨hret, rest, hext⟩ :=
      ResourceManager.InitGPUResource_new_cases cfg d m place nullptr b hnull.1 hr
    refine ⟨b.stream_, hst rfl, ?_, ?_, ?_⟩
    · rw [hext, GPUContextResource.initSeq_append, hinit]
      simp
    · rcases hret with h1 | h1
      · exact h1
      · rw [h1] at hok; simp [Res.isOk] at hok
    · intro hun
      have hrun :=
        ResourceManager.InitGPUResource_new_fresh cfg d m place nullptr b hnull.1 hr hun.1
      have hget : ((m.InitGPUResource cfg d place nullptr).mgr.GetGPUResource b.stream_).ret
          = .ok b := by
        rw [hrun, ResourceManager.GetGPUResource_ret]
        simp [UMap.lookup_emplace_of_not _ _ _ hun.1]
      have hcnt : ((m.InitGPUResource cfg d place nullptr).mgr.RefCount b.stream_).ret
          = .ok 1 := by
        rw [hrun, ResourceManager.RefCount_ret]
        simp [ResourceManager.countOf_eq, UMap.lookup_update_self, wrapInt]
      refine ⟨hcnt, b, rfl, hget, hbo, rfl, ?_, ?_, ?_⟩
      · rw [ResourceManager.DestroyGPUResource_last true _ b.stream_ b hget hcnt]
        exact ResourceManager.destruct_ret_ok b
      · rw [ResourceManager.DestroyGPUResource_last false _ b.stream_ b hget hcnt]
        exact ResourceManager.destruct_ret_fail b hbo
      · intro ok
        rw [ResourceManager.DestroyGPUResource_last ok _ b.stream_ b hget hcnt]
        refine ⟨ResourceManager.RefCount_of_unregistered _ _
            (ResourceManager.DestroyGPUResource_last_unregistered _ _),
          ResourceManager.DestroyGPUResource_last_unregistered _ _, ?_⟩
        simp only [extCalls_append, ResourceManager.extCalls_destruct, List.count_append,
          GPUContextResource.StreamDestroy_count_of_owned ok b hbo]
        simp [extCalls]

/-- The amended C5 at the manager that holds the borrowed stream 5: the driver
creates stream 7. -/
theorem init_null_stream_owned_witness :
    borrowed5.Unregistered nullptr ∧
    (borrowed5.InitGPUResource (.cuda 11000) (Driver.sample 7) ⟨0⟩ nullptr).ret = .ok 7 ∧
    ((borrowed5.InitGPUResource (.cuda 11000) (Driver.sample 7) ⟨0⟩ nullptr).mgr.RefCount 7).ret
      = .ok 1 := by
  obtain ⟨t, h1, -, h3, h4⟩ := init_null_stream_owned (.cuda 11000) (Driver.sample 7) borrowed5
    ⟨0⟩ (by decide) (by decide)
  have ht : t = 7 := by
    have : (Driver.sample 7).InitStream = some 7 := rfl
    rw [this] at h1
    exact (Option.some.inj h1).symm
  subst ht
  exact ⟨by decide, h3, (h4 (by decide)).1⟩

/-- C10, as stated, fails for a bundle that creates its own stream 7 on CUDA
11000: its destroy calls go through the sub-resources in the order of their
init calls, the stream first, and not in the reverse order. -/
theorem teardown_not_reverse_of_init :
    initSeq (GPUContextResource.new (.cuda 11000) (Driver.sample 7) ⟨0⟩ nullptr).calls =
      [.stream 7, .dnn 11, .blas 12, .blas 13, .blas 14, .blasLt 15, .solver 16, .sparse 17] ∧
    destroySeq ((bundleOf (GPUContextResource.new (.cuda 11000) (Driver.sample 7) ⟨0⟩
        nullptr)).DestroyGPUResource true).calls =
      [.stream 7, .dnn 11, .blas 12, .blas 13, .blas 14, .blasLt 15, .solver 16, .sparse 17] ∧
    destroySeq ((bundleOf (GPUContextResource.new (.cuda 11000) (Driver.sample 7) ⟨0⟩
        nullptr)).DestroyGPUResource true).calls ≠
      (initSeq (GPUContextResource.new (.cuda 11000) (Driver.sample 7) ⟨0⟩ nullptr).calls).reverse := by
  decide

/-- C10 (amended): for every constructed bundle, `DestroyGPUResource` issues the
stream-destroy call first, present exactly when the stream was created by this
bundle, and then destroys the dnn handle, the three blas handles, the blasLt,
solver and sparse handles; this is the order of the init calls, which are a
sublist of it and equal to it when all three blas handles are initialised.  For
a borrowed stream the answer of the driver plays no part; a stream-destroy call
that fails throws before any handle is destroyed. -/
theorem teardown_in_init_order (cfg : Platform) (d : Driver) (place : Place) (stream : Stream)
    (b : GPUContextResource) (h : (GPUContextResource.new cfg d place stream).res = .ok b) :
    destroySeq (b.DestroyGPUResource true).calls =
      (if stream = nullptr then [SubResource.stream b.stream_] else [])
        ++ [SubResource.dnn b.dnn_handle_, SubResource.blas b.blas_handle_,
            SubResource.blas b.blas_tensor_core_handle_,
            SubResource.blas b.blas_tf32_tensor_core_handle_,
            SubResource.blasLt b.blaslt_handle_, SubResource.solver b.solver_handle_,
            SubResource.sparse b.sparse_handle_] ∧
    (∀ ok, (∃ t, Call.StreamDestroy t ∈ (b.DestroyGPUResource ok).calls) ↔ stream = nullptr) ∧
    initSeq (GPUContextResource.new cfg d place stream).calls =
      (if stream = nullptr then [SubResource.stream b.stream_] else [])
        ++ [SubResource.dnn b.dnn_handle_, SubResource.blas b.blas_handle_]
        ++ (if cfg.hasTensorCore then [SubResource.blas b.blas_tensor_core_handle_] else [])
        ++ (if cfg.hasTF32 then [SubResource.blas b.blas_tf32_tensor_core_handle_] else [])
        ++ [SubResource.blasLt b.blaslt_handle_, SubResource.solver b.solver_handle_,
            SubResource.sparse b.sparse_handle_] ∧
    (initSeq (GPUContextResource.new cfg d place stream).calls).Sublist
      (destroySeq (b.DestroyGPUResource true).calls) ∧
    (cfg.hasTF32 = true →
      destroySeq (b.DestroyGPUResource true).calls =
        initSeq (GPUContextResource.new cfg d place stream).calls) ∧
    (stream ≠ nullptr → ∀ ok, b.DestroyGPUResource ok = b.DestroyGPUResource true) ∧
    (stream = nullptr →
      (b.DestroyGPUResource false).res = .error .External ∧
      destroySeq (b.DestroyGPUResource false).calls = [SubResource.stream b.stream_]) := by
  obtain ⟨-, hown, -, -, hinit, -, -, -⟩ := GPUContextResource.new_ok h
  have hhandles : destroySeq (GPUContextResource.DestroyHandles b) =
      [SubResource.dnn b.dnn_handle_, SubResource.blas b.blas_handle_,
        SubResource.blas b.blas_tensor_core_handle_,
        SubResource.blas b.blas_tf32_tensor_core_handle_,
        SubResource.blasLt b.blaslt_handle_, SubResource.solver b.solver_handle_,
        SubResource.sparse b.sparse_handle_] := by
    simp [GPUContextResource.DestroyHandles, GPUContextResource.DestroyDnnHandle,
      GPUContextResource.DestroyBlasHandle, GPUContextResource.DestroyBlasLtHandle,
      GPUContextResource.DestroySolverHandle, GPUContextResource.DestroySparseHandle,
      destroySeq, Call.destroyOf]
  have hdestroy : destroySeq (b.DestroyGPUResource true).calls =
      (if stream = nullptr then [SubResource.stream b.stream_] else [])
        ++ [SubResource.dnn b.dnn_handle_, SubResource.blas b.blas_handle_,
            SubResource.blas b.blas_tensor_core_handle_,
            SubResource.blas b.blas_tf32_tensor_core_handle_,
            SubResource.blasLt b.blaslt_handle_, SubResource.solver b.solver_handle_,
            SubResource.sparse b.sparse_handle_] := by
    by_cases hs : stream = nullptr
    · have ho : b.owned_stream_ = true := by simp [hown, hs]
      rw [GPUContextResource.DestroyGPUResource_owned_ok b ho]
      have : destroySeq (Call.StreamDestroy b.stream_ :: GPUContextResource.DestroyHandles b)
          = SubResource.stream b.stream_ :: destroySeq (GPUContextResource.DestroyHandles b) := by
        simp [destroySeq, Call.destroyOf]
      simp only [this, hhandles, hs, if_true, List.singleton_append]
    · have ho : b.owned_stream_ = false := by simp [hown, hs]
      rw [GPUContextResource.DestroyGPUResource_borrowed true b ho]
      simp only [hhandles, hs, if_false, List.nil_append]
  refine ⟨hdestroy, ?_, hinit, ?_, ?_, ?_, ?_⟩
  · intro ok
    by_cases hs : stream = nullptr
    · have ho : b.owned_stream_ = true := by simp [hown, hs]
      refine ⟨fun _ => hs, fun _ => ⟨b.stream_, ?_⟩⟩
      have := GPUContextResource.StreamDestroy_count_of_owned ok b ho
      exact List.count_pos_iff.1 (by omega)
    · have ho : b.owned_stream_ = false := by simp [hown, hs]
      constructor
      · rintro ⟨t, ht⟩
        exact absurd ht (GPUContextResource.StreamDestroy_not_mem_of_borrowed ok b ho t)
      · intro e; exact absurd e hs
  · rw [hdestroy, hinit]
    simp only [List.append_assoc]
    apply List.Sublist.append (List.Sublist.refl _)
    apply List.Sublist.cons₂
    apply List.Sublist.cons₂
    cases cfg.hasTensorCore <;> cases cfg.hasTF32 <;> simp
  · intro htf
    have htc : cfg.hasTensorCore = true := by
      cases cfg with
      | hip => simp [Platform.hasTF32] at htf
      | cuda v =>
        simp only [Platform.hasTF32, decide_eq_true_eq] at htf
        simp only [Platform.hasTensorCore, decide_eq_true_eq]
        omega
    rw [hdestroy, hinit, htf, htc]
    simp
  · intro hs ok
    have ho : b.owned_stream_ = false := by simp [hown, hs]
    rw [GPUContextResource.DestroyGPUResource_borrowed ok b ho,
      GPUContextResource.DestroyGPUResource_borrowed true b ho]
  · intro hs
    have ho : b.owned_stream_ = true := by simp [hown, hs]
    rw [GPUContextResource.DestroyGPUResource_owned_fail b ho]
    exact ⟨rfl, by simp [destroySeq, Call.destroyOf]⟩

/-- The amended C10 at a bundle that borrows stream 5 on a HIP build, where
only the base blas handle is initialised. -/
theorem teardown_in_init_order_witness :
    (GPUContextResource.new .hip (Driver.sample 7) ⟨0⟩ 5).res
      = .ok (bundleOf (GPUContextResource.new .hip (Driver.sample 7) ⟨0⟩ 5)) ∧
    destroySeq ((bundleOf (GPUContextResource.new .hip (Driver.sample 7) ⟨0⟩
        5)).DestroyGPUResource true).calls
      = [.dnn 11, .blas 12, .blas 0, .blas 0, .blasLt 15, .solver 16, .sparse 17] ∧
    initSeq (GPUContextResource.new .hip (Driver.sample 7) ⟨0⟩ 5).calls
      = [.dnn 11, .blas 12, .blasLt 15, .solver 16, .sparse 17] := by
  have h := teardown_in_init_order .hip (Driver.sample 7) ⟨0⟩ 5
    (bundleOf (GPUContextResource.new .hip (Driver.sample 7) ⟨0⟩ 5)) (by decide)
  refine ⟨by decide, ?_, ?_⟩
  · rw [h.1]; decide
  · rw [h.2.2.1]; decide

/-- C7, as stated, fails: when `phi::InitSparseHandle` throws during
`InitGPUResource(place, nullptr)` on the empty manager, the call throws and the
registry is unchanged, but the stream 7 created by this attempt and the
handles already initialised get no destroy call. -/
theorem failed_construction_skips_destroy_calls :
    (ResourceManager.empty.InitGPUResource (.cuda 11000) Driver.failingSparse ⟨0⟩ nullptr).ret
      = .error .External ∧
    (ResourceManager.empty.InitGPUResource (.cuda 11000) Driver.failingSparse ⟨0⟩ nullptr).mgr
      = ResourceManager.empty ∧
    initSeq (extCalls
      (ResourceManager.empty.InitGPUResource (.cuda 11000) Driver.failingSparse ⟨0⟩ nullptr).trace)
      = [.stream 7, .dnn 11, .blas 12, .blas 13, .blas 14, .blasLt 15, .solver 16] ∧
    destroySeq (extCalls
      (ResourceManager.empty.InitGPUResource (.cuda 11000) Driver.failingSparse ⟨0⟩ nullptr).trace)
      = [] := by
  decide

/-- C7 (amended): when a step of the construction fails during
`InitGPUResource(place, stream)` for a stream that is not registered, the call
throws, `ref_count_` and `gpu_resources_` are exactly as before, and the failed
call issues no destroy call and runs no destructor: what the attempt had
initialised is left as it is. -/
theorem failed_construction_leaves_registry (cfg : Platform) (d : Driver) (m : ResourceManager)
    (place : Place) (stream : Stream) (hnew : m.gpu_resources_.count stream = 0)
    (hfail : d.succeeds cfg stream = false) :
    (∃ e, (m.InitGPUResource cfg d place stream).ret = .error e) ∧
    (m.InitGPUResource cfg d place stream).mgr = m ∧
    destroySeq (extCalls (m.InitGPUResource cfg d place stream).trace) = [] ∧
    (∀ b, Ev.Destruct b ∉ (m.InitGPUResource cfg d place stream).trace) ∧
    extCalls (m.InitGPUResource cfg d place stream).trace
      = (GPUContextResource.new cfg d place stream).calls := by
  cases hr : (GPUContextResource.new cfg d place stream).res with
  | ok b =>
    have := (GPUContextResource.new_isOk_iff cfg d place stream).1 (by rw [hr]; rfl)
    rw [hfail] at this; simp at this
  | error e =>
    rw [ResourceManager.InitGPUResource_new_error cfg d m place stream e hnew hr]
    have hext : extCalls ([Ev.LockGpuMutex, Ev.Access .gpu_resources_] ++
          (Ev.Construct place stream ::
            (GPUContextResource.new cfg d place stream).calls.map Ev.Ext)
          ++ ResourceManager.unlockAfter (Res.error e : Res Stream))
        = (GPUContextResource.new cfg d place stream).calls := by
      simp [extCalls_append, extCalls_cons_Lock, extCalls_cons_Access, extCalls_cons_Construct,
        extCalls_map_Ext, ResourceManager.extCalls_unlockAfter, extCalls_nil]
    refine ⟨⟨e, rfl⟩, rfl, ?_, ?_, hext⟩
    · show destroySeq (extCalls _) = []
      rw [hext]; exact GPUContextResource.new_destroySeq cfg d place stream
    · intro b
      simp only [List.mem_append, List.mem_cons, List.mem_map, not_or]
      refine ⟨⟨by simp, ?_⟩, ?_⟩
      · simp
      · unfold ResourceManager.unlockAfter
        split <;> simp

/-- The amended C7 at the empty manager with the driver whose sparse-handle
init fails. -/
theorem failed_construction_leaves_registry_witness :
    ResourceManager.empty.gpu_resources_.count nullptr = 0 ∧
    Driver.failingSparse.succeeds (.cuda 11000) nullptr = false ∧
    (ResourceManager.empty.InitGPUResource (.cuda 11000) Driver.failingSparse ⟨0⟩ nullptr).mgr
      = ResourceManager.empty :=
  ⟨by decide, by decide,
    (failed_construction_leaves_registry (.cuda 11000) Driver.failingSparse ResourceManager.empty
      ⟨0⟩ nullptr (by decide) (by decide)).2.1⟩

/-- C8, as stated, fails when the allocator hands out a buffer whose address is
null: `allocate(8)` on an empty adapter records the buffer under the null key
and returns null, and `deallocate` of that same address skips the erase, so
`allocations_` is not empty afterwards. -/
theorem allocate_then_deallocate_null_address_stays_tracked :
    (EigenGpuStreamDevice.new.allocate nullAllocator 8).ret = .ok nullptr ∧
    (EigenGpuStreamDevice.new.allocate nullAllocator 8).requests = [8] ∧
    ((EigenGpuStreamDevice.new.allocate nullAllocator 8).dev.deallocate nullptr).dev.allocations_
      = [(nullptr, { ptr := nullptr, size := 8 })] ∧
    ((EigenGpuStreamDevice.new.allocate nullAllocator 8).dev.deallocate nullptr).dev.allocations_
      ≠ [] := by
  decide

/-- C8 (amended): `allocate(0)` returns null, makes no allocator call and
leaves the adapter unchanged; for `n > 0` on an empty `allocations_`,
`allocate(n)` calls the allocator once, returns the address of the buffer and
records it, and when that address is not null `deallocate` of it leaves
`allocations_` empty; `deallocate` of an address that is not a key (null
included) leaves the adapter unchanged and returns. -/
theorem allocate_deallocate_tracking (Allocate : Nat → Res Allocation)
    (dev : EigenGpuStreamDevice) :
    ((dev.allocate Allocate 0).ret = .ok nullptr ∧ (dev.allocate Allocate 0).requests = [] ∧
      (dev.allocate Allocate 0).dev = dev) ∧
    (∀ n buf, 0 < n → dev.allocations_ = [] → Allocate n = .ok buf →
      (dev.allocate Allocate n).ret = .ok buf.ptr ∧
      (dev.allocate Allocate n).requests = [n] ∧
      (dev.allocate Allocate n).dev.allocations_ = [(buf.ptr, buf)] ∧
      (buf.ptr ≠ nullptr →
        ((dev.allocate Allocate n).dev.deallocate buf.ptr).ret = .ok () ∧
        ((dev.allocate Allocate n).dev.deallocate buf.ptr).dev.allocations_ = [])) ∧
    (∀ addr, addr ∉ dev.allocations_.keys →
      (dev.deallocate addr).ret = .ok () ∧ (dev.deallocate addr).dev = dev ∧
      (dev.deallocate addr).requests = []) := by
  refine ⟨?_, ?_, ?_⟩
  · simp [EigenGpuStreamDevice.allocate]
  · intro n buf hn hempty hbuf
    have hn0 : n ≠ 0 := by omega
    simp only [EigenGpuStreamDevice.allocate, hn0, if_false, hbuf, hempty, UMap.emplace]
    refine ⟨trivial, trivial, trivial, ?_⟩
    intro hp
    simp [EigenGpuStreamDevice.deallocate, hp, UMap.erase]
  · intro addr hk
    by_cases h0 : addr = nullptr
    · simp [EigenGpuStreamDevice.deallocate, h0]
    · have hc : dev.allocations_.count addr = 0 := (UMap.count_eq_zero_iff _ _).2 hk
      simp [EigenGpuStreamDevice.deallocate, h0, UMap.erase_of_not _ _ hc]

/-- The amended C8 at a concrete adapter: sixteen bytes from an allocator that
answers with address 4096, and the release of an address never handed out. -/
theorem allocate_deallocate_tracking_witness :
    (EigenGpuStreamDevice.new.allocate sampleAllocator 16).ret = .ok 4096 ∧
    ((EigenGpuStreamDevice.new.allocate sampleAllocator 16).dev.deallocate 4096).dev.allocations_
      = [] ∧
    (EigenGpuStreamDevice.new.deallocate 77).dev = EigenGpuStreamDevice.new := by
  have h := allocate_deallocate_tracking sampleAllocator EigenGpuStreamDevice.new
  have h2 := h.2.1 16 { ptr := 4096, size := 16 } (by decide) rfl rfl
  exact ⟨h2.1, (h2.2.2.2 (by decide)).2, (h.2.2 77 (by simp [EigenGpuStreamDevice.new, UMap.keys])).2.1⟩

end paddle
